import Mathlib

/-!
Verification of the five-tank MPC simulation core (`app/src/simulation` and
`app/src/services/realtime_service.py`) against its natural-language
specification.

The Python code is shallowly embedded over `ℚ`.  Floating-point numerals of the
source are carried over as the exact rationals they denote; `np.pi` is embedded
as the exact value of the IEEE-754 double `math.pi`; `np.sqrt` is an abstract
parameter `sq : ℚ → ℚ` threaded through the physics functions (every claim
treated here is independent of the values this function takes, and concrete
evaluations instantiate it explicitly).  Mutation of Python objects is embedded
as explicit state passing; a raised exception is an `Except.error` carrying the
message, paired with the object state at the moment of the raise when that
state is observable by the caller.
-/

namespace TanquesMPC

/-- Embedding of `np.clip x lo hi` (equivalently `min (max x lo) hi`). -/
def npClip (x lo hi : ℚ) : ℚ := min (max x lo) hi

/-- The exact rational value of the IEEE-754 double `np.pi`. -/
def npPi : ℚ := 884279719003555 / 281474976710656

/-- The `1e-9` guard used by the derivative guards and the integration loop. -/
def eps9 : ℚ := 1 / 1000000000

namespace params

/-! Constants of `parametros_sistema.py`, written as exact rationals. -/

/-- `DT_INTEGRACAO = 0.5`. -/
def DT_INTEGRACAO : ℚ := 1/2

/-- `TS_CONTROLADOR = 5.0`. -/
def TS_CONTROLADOR : ℚ := 5

/-- `TANQUES_PROCESSO[*]["raio_inferior"] = 0.75`. -/
def raio_inferior_processo : ℚ := 3/4

/-- `TANQUES_PROCESSO[*]["raio_superior"] = 1.25`. -/
def raio_superior_processo : ℚ := 5/4

/-- `TANQUES_PROCESSO[*]["altura_maxima"] = 3.0`. -/
def altura_maxima_processo : ℚ := 3

/-- `TANQUES_UTILIDADES[*]["raio"] = 1.75`. -/
def raio_utilidades : ℚ := 7/4

/-- `TANQUES_UTILIDADES[*]["altura_maxima"] = 3.0`. -/
def altura_maxima_utilidades : ℚ := 3

/-- `KV_VALVULAS[*] = 0.016`. -/
def KV_VALVULA : ℚ := 2/125

/-- `KP_BOMBAS_AGUA[*] = 0.008`. -/
def KP_BOMBA_AGUA : ℚ := 1/125

/-- `KP_BOMBAS_SALMOURA[*] = 0.008`. -/
def KP_BOMBA_SALMOURA : ℚ := 1/125

/-- `KV_SUPRIMENTO_A = 0.048`. -/
def KV_SUPRIMENTO_A : ℚ := 6/125

/-- `KV_SUPRIMENTO_B = 0.048`. -/
def KV_SUPRIMENTO_B : ℚ := 6/125

/-- `CB = 360.0` (brine concentration). -/
def CB : ℚ := 360

/-- `PONTO_OPERACAO["hA_eq"] = 1.50`. -/
def hA_eq : ℚ := 3/2

/-- `PONTO_OPERACAO["hB_eq"] = 1.50`. -/
def hB_eq : ℚ := 3/2

/-- `PONTO_OPERACAO["h_eq"] = 1.50`. -/
def h_eq : ℚ := 3/2

/-- `PONTO_OPERACAO["C_eq"] = 180.0`. -/
def C_eq : ℚ := 180

/-- `PONTO_OPERACAO["uA_eq"] = 0.306`. -/
def uA_eq : ℚ := 153/500

/-- `PONTO_OPERACAO["uB_eq"] = 0.306`. -/
def uB_eq : ℚ := 153/500

/-- `PONTO_OPERACAO["u1_eq"] = 0.6125`. -/
def u1_eq : ℚ := 49/80

/-- `PONTO_OPERACAO["u2_eq"] = 0.6125`. -/
def u2_eq : ℚ := 49/80

/-- `PONTO_OPERACAO["u3_eq"] = 0.50`. -/
def u3_eq : ℚ := 1/2

/-- `LIMITES_NIVEL["h_min"] = 0.2`. -/
def h_min : ℚ := 1/5

/-- `LIMITES_NIVEL["h_max"] = 2.8`. -/
def h_max : ℚ := 14/5

/-- `LIMITES_CONCENTRACAO["C_min"] = 0.0`. -/
def C_min : ℚ := 0

/-- `LIMITES_CONCENTRACAO["C_max"] = 360.0`. -/
def C_max : ℚ := 360

/-- `LIMITES_VARIACAO["delta_u1_max"] = 0.2`. -/
def delta_u1_max : ℚ := 1/5

/-- `LIMITES_VARIACAO["delta_u2_max"] = 0.2`. -/
def delta_u2_max : ℚ := 1/5

/-- `LIMITES_VARIACAO["delta_u3_max"] = 0.15`. -/
def delta_u3_max : ℚ := 3/20

/-- `MPC_HORIZONTES["Np"] = 50`. -/
def Np : ℕ := 50

/-- `MPC_HORIZONTES["Nc"] = 20`. -/
def Nc : ℕ := 20

/-- `LIMITE_OVERSHOOT = 0.08`. -/
def LIMITE_OVERSHOOT : ℚ := 2/25

/-- `LIMITE_UNDERSHOOT = 0.08`. -/
def LIMITE_UNDERSHOOT : ℚ := 2/25

/-- Modelled from the spec: `ORDEM_ESTADOS` is read by `modelo_tanques.py`
(`_montar_estado_array`, `_converter_estado_para_array`) but is not defined in
`parametros_sistema.py`; §3 of the spec fixes the state order as
`hA, hB, hC, CC, hD, CD, hE, CE`. -/
def ORDEM_ESTADOS : List String := ["hA", "hB", "hC", "CC", "hD", "CD", "hE", "CE"]

/-- Modelled from the spec: `ORDEM_CONTROLES` is read by `modelo_tanques.py`
but is not defined in `parametros_sistema.py`; §3 of the spec fixes the control
order as the two supply valves followed by water pump / brine pump / outlet
valve per process tank. -/
def ORDEM_CONTROLES : List String :=
  ["uA", "uB", "uC1", "uC2", "uC3", "uD1", "uD2", "uD3", "uE1", "uE2", "uE3"]

/-- Modelled from the spec: `ESTADO_OPERACIONAL_VETOR` is read by
`SistemaCompleto.__init__` but is not defined in `parametros_sistema.py`; it is
the equilibrium state vector in the order of `ORDEM_ESTADOS`. -/
def ESTADO_OPERACIONAL_VETOR : List ℚ :=
  [hA_eq, hB_eq, h_eq, C_eq, h_eq, C_eq, h_eq, C_eq]

/-- Modelled from the spec: `CONTROLE_OPERACIONAL_VETOR` is read by
`SistemaCompleto._controles_padrao` but is not defined in
`parametros_sistema.py`; it is the equilibrium actuator vector in the order of
`ORDEM_CONTROLES`. -/
def CONTROLE_OPERACIONAL_VETOR : List ℚ :=
  [uA_eq, uB_eq, u1_eq, u2_eq, u3_eq, u1_eq, u2_eq, u3_eq, u1_eq, u2_eq, u3_eq]

/-- The module-level names actually defined by `parametros_sistema.py`.  An
attribute access outside this list raises `AttributeError` in Python. -/
def atributosDefinidos : List String :=
  ["np", "TEMPO_TOTAL", "DT_INTEGRACAO", "TS_CONTROLADOR", "TANQUES_PROCESSO",
   "TANQUES_UTILIDADES", "KV_VALVULAS", "KP_BOMBAS_AGUA", "KP_BOMBAS_SALMOURA",
   "KV_SUPRIMENTO_A", "KV_SUPRIMENTO_B", "PONTO_OPERACAO", "CB", "AUTOVALORES",
   "CONSTANTES_TEMPO", "A_CONTINUA", "B_CONTINUA", "C_CONTINUA", "D_CONTINUA",
   "LIMITES_NIVEL", "LIMITES_CONCENTRACAO", "LIMITES_ATUADORES",
   "LIMITES_VARIACAO", "MPC_HORIZONTES", "MPC_PESOS", "LIMITE_OVERSHOOT",
   "LIMITE_UNDERSHOOT", "REQUISITOS", "CONDICOES_INICIAIS",
   "calcular_area_tronco_conico", "calcular_volume_tronco_conico",
   "validar_limites", "INFO_SISTEMA"]

/-- Embedding of a `getattr` on the `parametros_sistema` module: succeeds for
the names the module defines and raises `AttributeError` otherwise. -/
def obterAtributo (nome : String) : Except String Unit :=
  if nome ∈ atributosDefinidos then Except.ok ()
  else Except.error ("AttributeError: module parametros_sistema has no attribute " ++ nome)

end params

/-! ## Tank models (`modelo_tanques.py`) -/

/-- State of a `TanqueCilindrico` instance (utility reservoirs A and B).
`area` is stored at construction time as `np.pi * raio**2`, like the source. -/
structure TanqueCilindrico where
  raio : ℚ
  altura_max : ℚ
  area : ℚ
  nivel : ℚ
  concentracao : ℚ
  vazao_entrada : ℚ
  vazao_saida : ℚ
deriving DecidableEq

/-- `TanqueCilindrico.__init__`. -/
def novoTanqueCilindrico (raio altura_max nivel_inicial concentracao : ℚ) :
    TanqueCilindrico :=
  { raio := raio
    altura_max := altura_max
    area := npPi * raio ^ 2
    nivel := nivel_inicial
    concentracao := concentracao
    vazao_entrada := 0
    vazao_saida := 0 }

/-- `TanqueCilindrico.set_vazoes`: stores both flows clamped below at `0`. -/
def TanqueCilindrico.setVazoes (t : TanqueCilindrico) (vazaoEntrada vazaoSaida : ℚ) :
    TanqueCilindrico :=
  { t with vazao_entrada := max 0 vazaoEntrada, vazao_saida := max 0 vazaoSaida }

/-- `TanqueCilindrico.derivada_nivel`: `(Q_in - Q_out) / A`. -/
def TanqueCilindrico.derivadaNivel (t : TanqueCilindrico) : ℚ :=
  (t.vazao_entrada - t.vazao_saida) / t.area

/-- `TanqueCilindrico.atualizar`: RK4 on the level followed by saturation to
`[0, altura_max]`. -/
def TanqueCilindrico.atualizar (t : TanqueCilindrico) (dt : ℚ) : TanqueCilindrico :=
  let h0 := t.nivel
  let k1 := t.derivadaNivel
  let k2 := ({ t with nivel := h0 + k1 * dt / 2 }).derivadaNivel
  let k3 := ({ t with nivel := h0 + k2 * dt / 2 }).derivadaNivel
  let k4 := ({ t with nivel := h0 + k3 * dt }).derivadaNivel
  { t with nivel := npClip (h0 + (k1 + 2 * k2 + 2 * k3 + k4) * dt / 6) 0 t.altura_max }

/-- State of a `TanqueTroncoConico` instance (process tanks C, D, E).
`dr_dh` is stored at construction time; `cB` embeds the `self.CB` attribute. -/
structure TanqueTroncoConico where
  raio_inferior : ℚ
  raio_superior : ℚ
  altura_max : ℚ
  kv : ℚ
  kp_agua : ℚ
  kp_salmoura : ℚ
  dr_dh : ℚ
  nivel : ℚ
  concentracao : ℚ
  u1 : ℚ
  u2 : ℚ
  u3 : ℚ
  cB : ℚ
deriving DecidableEq

/-- `TanqueTroncoConico.__init__`. -/
def novoTanqueTroncoConico (raio_inferior raio_superior altura_max kv_valvula
    kp_bomba_agua kp_bomba_salmoura nivel_inicial concentracao_inicial : ℚ) :
    TanqueTroncoConico :=
  { raio_inferior := raio_inferior
    raio_superior := raio_superior
    altura_max := altura_max
    kv := kv_valvula
    kp_agua := kp_bomba_agua
    kp_salmoura := kp_bomba_salmoura
    dr_dh := (raio_superior - raio_inferior) / altura_max
    nivel := nivel_inicial
    concentracao := concentracao_inicial
    u1 := 0
    u2 := 0
    u3 := 0
    cB := params.CB }

/-- `TanqueTroncoConico.set_controles`: commands saturated to `[0, 1]`. -/
def TanqueTroncoConico.setControles (t : TanqueTroncoConico) (u1 u2 u3 : ℚ) :
    TanqueTroncoConico :=
  { t with u1 := npClip u1 0 1, u2 := npClip u2 0 1, u3 := npClip u3 0 1 }

/-- `TanqueTroncoConico.calcular_raio`. -/
def TanqueTroncoConico.calcularRaio (t : TanqueTroncoConico) (h : ℚ) : ℚ :=
  t.raio_inferior + t.dr_dh * h

/-- `TanqueTroncoConico.calcular_area`. -/
def TanqueTroncoConico.calcularArea (t : TanqueTroncoConico) (h : ℚ) : ℚ :=
  npPi * (t.calcularRaio h) ^ 2

/-- `TanqueTroncoConico.calcular_volume`. -/
def TanqueTroncoConico.calcularVolume (t : TanqueTroncoConico) (h : ℚ) : ℚ :=
  let r_h := t.calcularRaio h
  (npPi * h / 3) * (t.raio_inferior ^ 2 + t.raio_inferior * r_h + r_h ^ 2)

/-- `TanqueTroncoConico.calcular_vazoes`: `(Q_agua, Q_salmoura, Q_saida)`,
with the Torricelli term `kv * u3 * sqrt(max(nivel, 0))`. -/
def TanqueTroncoConico.calcularVazoes (t : TanqueTroncoConico) (sq : ℚ → ℚ) :
    ℚ × ℚ × ℚ :=
  (t.kp_agua * t.u1, t.kp_salmoura * t.u2, t.kv * t.u3 * sq (max t.nivel 0))

/-- `TanqueTroncoConico.derivada_nivel` with the near-zero area guard. -/
def TanqueTroncoConico.derivadaNivel (t : TanqueTroncoConico) (sq : ℚ → ℚ) : ℚ :=
  let q := t.calcularVazoes sq
  let aH := t.calcularArea t.nivel
  if aH < eps9 then 0 else (q.1 + q.2.1 - q.2.2) / aH

/-- `TanqueTroncoConico.derivada_concentracao` with the near-zero volume guard. -/
def TanqueTroncoConico.derivadaConcentracao (t : TanqueTroncoConico) (sq : ℚ → ℚ) : ℚ :=
  let q := t.calcularVazoes sq
  let vH := t.calcularVolume t.nivel
  if vH < eps9 then 0
  else (q.2.1 * t.cB - t.concentracao * (q.1 + q.2.1)) / vH

/-- `TanqueTroncoConico.atualizar`: the level RK4 stages are computed first
(mutating `self.nivel` in place between stage evaluations, concentration left
at its initial value), then the state is rewound and the concentration RK4
stages are computed at the replayed intermediate levels; both states are then
saturated to their physical ranges. -/
def TanqueTroncoConico.atualizar (t : TanqueTroncoConico) (sq : ℚ → ℚ) (dt : ℚ) :
    TanqueTroncoConico :=
  let h0 := t.nivel
  let c0 := t.concentracao
  let k1h := t.derivadaNivel sq
  let k2h := ({ t with nivel := h0 + k1h * dt / 2 }).derivadaNivel sq
  let k3h := ({ t with nivel := h0 + k2h * dt / 2 }).derivadaNivel sq
  let k4h := ({ t with nivel := h0 + k3h * dt }).derivadaNivel sq
  let novoNivel := h0 + (k1h + 2 * k2h + 2 * k3h + k4h) * dt / 6
  let k1c := ({ t with nivel := h0, concentracao := c0 }).derivadaConcentracao sq
  let k2c := ({ t with nivel := h0 + k1h * dt / 2,
                       concentracao := c0 + k1c * dt / 2 }).derivadaConcentracao sq
  let k3c := ({ t with nivel := h0 + k2h * dt / 2,
                       concentracao := c0 + k2c * dt / 2 }).derivadaConcentracao sq
  let k4c := ({ t with nivel := h0 + k3h * dt,
                       concentracao := c0 + k3c * dt }).derivadaConcentracao sq
  let novaConcentracao := c0 + (k1c + 2 * k2c + 2 * k3c + k4c) * dt / 6
  { t with nivel := npClip novoNivel 0 t.altura_max,
           concentracao := npClip novaConcentracao 0 t.cB }

/-! ## The five-tank system (`SistemaCompleto`) -/

/-- The 11-entry control dictionary keyed by `ORDEM_CONTROLES`. -/
structure Controles where
  uA : ℚ
  uB : ℚ
  uC1 : ℚ
  uC2 : ℚ
  uC3 : ℚ
  uD1 : ℚ
  uD2 : ℚ
  uD3 : ℚ
  uE1 : ℚ
  uE2 : ℚ
  uE3 : ℚ
deriving DecidableEq

/-- Values of the control dictionary in the order of `ORDEM_CONTROLES`. -/
def Controles.paraLista (c : Controles) : List ℚ :=
  [c.uA, c.uB, c.uC1, c.uC2, c.uC3, c.uD1, c.uD2, c.uD3, c.uE1, c.uE2, c.uE3]

/-- Control dictionary built from an 11-entry vector in `ORDEM_CONTROLES` order. -/
def controlesDeLista (v : List ℚ) : Controles :=
  { uA := v.getD 0 0, uB := v.getD 1 0, uC1 := v.getD 2 0, uC2 := v.getD 3 0,
    uC3 := v.getD 4 0, uD1 := v.getD 5 0, uD2 := v.getD 6 0, uD3 := v.getD 7 0,
    uE1 := v.getD 8 0, uE2 := v.getD 9 0, uE3 := v.getD 10 0 }

/-- The per-key clamp of `_converter_controles_para_dict`: every actuator limit
in `LIMITES_ATUADORES` is `[0, 1]`. -/
def cliparControles (c : Controles) : Controles :=
  { uA := npClip c.uA 0 1, uB := npClip c.uB 0 1,
    uC1 := npClip c.uC1 0 1, uC2 := npClip c.uC2 0 1, uC3 := npClip c.uC3 0 1,
    uD1 := npClip c.uD1 0 1, uD2 := npClip c.uD2 0 1, uD3 := npClip c.uD3 0 1,
    uE1 := npClip c.uE1 0 1, uE2 := npClip c.uE2 0 1, uE3 := npClip c.uE3 0 1 }

/-- Embedding of `str.lower()`: ASCII lower-casing, character by character
(the method names compared against are plain ASCII). -/
def minusculas (s : String) : String := ⟨s.data.map Char.toLower⟩

/-- `dict.get(chave, padrao)` on an association list. -/
def lookupOuPadrao (d : List (String × ℚ)) (chave : String) (padrao : ℚ) : ℚ :=
  match d.lookup chave with
  | some v => v
  | none => padrao

/-- A Python argument that is a vector, a named map, or `None`
(`EstadoLike` / `ControleLike` in the source). -/
inductive VetorOuDict where
  | vetor (v : List ℚ)
  | dicionario (d : List (String × ℚ))
  | nada
deriving DecidableEq

/-- State of a `SistemaCompleto` instance: the five tanks plus the two caches
kept for the API (`_estado_cache`, `_controle_cache`). -/
structure SistemaCompleto where
  tanque_A : TanqueCilindrico
  tanque_B : TanqueCilindrico
  tanque_C : TanqueTroncoConico
  tanque_D : TanqueTroncoConico
  tanque_E : TanqueTroncoConico
  estadoCache : List ℚ
  controleCache : Controles
deriving DecidableEq

/-- `_montar_estado_array`: the state vector in `ORDEM_ESTADOS` order
(`hA, hB, hC, CC, hD, CD, hE, CE`). -/
def SistemaCompleto.montarEstadoArray (s : SistemaCompleto) : List ℚ :=
  [s.tanque_A.nivel, s.tanque_B.nivel,
   s.tanque_C.nivel, s.tanque_C.concentracao,
   s.tanque_D.nivel, s.tanque_D.concentracao,
   s.tanque_E.nivel, s.tanque_E.concentracao]

/-- `_atualizar_estado_cache`. -/
def SistemaCompleto.atualizarEstadoCache (s : SistemaCompleto) : SistemaCompleto :=
  { s with estadoCache := s.montarEstadoArray }

/-- `obter_estado`: refreshes the cache and returns a copy of it, paired with
the refreshed object. -/
def SistemaCompleto.obterEstado (s : SistemaCompleto) : SistemaCompleto × List ℚ :=
  (s.atualizarEstadoCache, s.atualizarEstadoCache.estadoCache)

/-- `_converter_estado_para_array`: `None` returns the cache, a named map is
read key-by-key in `ORDEM_ESTADOS` order with cache fallback, a vector is
length-checked against `ORDEM_ESTADOS` (raising `ValueError` on mismatch). -/
def SistemaCompleto.converterEstadoParaArray (s : SistemaCompleto)
    (estado : VetorOuDict) : Except String (List ℚ) :=
  match estado with
  | .nada => Except.ok s.estadoCache
  | .dicionario d =>
      Except.ok (params.ORDEM_ESTADOS.enum.map
        (fun p => lookupOuPadrao d p.2 (s.estadoCache.getD p.1 0)))
  | .vetor v =>
      if v.length = params.ORDEM_ESTADOS.length then Except.ok v
      else Except.error ("ValueError: Estado deve possuir 8 posicoes; recebido "
        ++ toString v.length ++ ".")

/-- `definir_estado`: converts the argument (raising on a bad vector length
without touching the object) and then stores each component clamped to its
physical range, refreshing the state cache. -/
def SistemaCompleto.definirEstado (s : SistemaCompleto) (estado : VetorOuDict) :
    SistemaCompleto × Except String Unit :=
  match s.converterEstadoParaArray estado with
  | .error e => (s, Except.error e)
  | .ok v =>
      let s1 :=
        { s with
          tanque_A := { s.tanque_A with
            nivel := npClip (v.getD 0 0) 0 s.tanque_A.altura_max }
          tanque_B := { s.tanque_B with
            nivel := npClip (v.getD 1 0) 0 s.tanque_B.altura_max }
          tanque_C := { s.tanque_C with
            nivel := npClip (v.getD 2 0) 0 s.tanque_C.altura_max,
            concentracao := npClip (v.getD 3 0) params.C_min params.CB }
          tanque_D := { s.tanque_D with
            nivel := npClip (v.getD 4 0) 0 s.tanque_D.altura_max,
            concentracao := npClip (v.getD 5 0) params.C_min params.CB }
          tanque_E := { s.tanque_E with
            nivel := npClip (v.getD 6 0) 0 s.tanque_E.altura_max,
            concentracao := npClip (v.getD 7 0) params.C_min params.CB } }
      (s1.atualizarEstadoCache, Except.ok ())

/-- Reads one control value from the `_controle_cache` dictionary by key. -/
def Controles.valor (c : Controles) (nome : String) : ℚ :=
  lookupOuPadrao (params.ORDEM_CONTROLES.zip c.paraLista) nome 0

/-- `_converter_controles_para_dict`: `None` reads the cache, a named map is
read key-by-key with cache fallback, a vector is length-checked (raising
`ValueError` on mismatch); the result is clamped per `LIMITES_ATUADORES`. -/
def SistemaCompleto.converterControlesParaDict (s : SistemaCompleto)
    (controles : VetorOuDict) : Except String Controles :=
  match controles with
  | .nada => Except.ok (cliparControles s.controleCache)
  | .dicionario d =>
      Except.ok (cliparControles (controlesDeLista
        (params.ORDEM_CONTROLES.map
          (fun nome => lookupOuPadrao d nome (s.controleCache.valor nome)))))
  | .vetor v =>
      if v.length = params.ORDEM_CONTROLES.length then
        Except.ok (cliparControles (controlesDeLista v))
      else
        Except.error ("ValueError: Controle deve possuir 11 posicoes; recebido "
          ++ toString v.length ++ ".")

/-- `atualizar_sistema`: pushes the commands into the process tanks, recomputes
the reservoir demand flows, updates all five tanks by one step of length `dt`,
and refreshes the state cache. -/
def SistemaCompleto.atualizarSistema (s : SistemaCompleto) (sq : ℚ → ℚ) (dt : ℚ)
    (controles : Controles) : SistemaCompleto :=
  let tC := s.tanque_C.setControles controles.uC1 controles.uC2 controles.uC3
  let tD := s.tanque_D.setControles controles.uD1 controles.uD2 controles.uD3
  let tE := s.tanque_E.setControles controles.uE1 controles.uE2 controles.uE3
  let qSaidaA := tC.kp_agua * tC.u1 + tD.kp_agua * tD.u1 + tE.kp_agua * tE.u1
  let qSaidaB := tC.kp_salmoura * tC.u2 + tD.kp_salmoura * tD.u2 + tE.kp_salmoura * tE.u2
  let qEntradaA := params.KV_SUPRIMENTO_A * controles.uA
  let qEntradaB := params.KV_SUPRIMENTO_B * controles.uB
  let tA := (s.tanque_A.setVazoes qEntradaA qSaidaA).atualizar dt
  let tB := (s.tanque_B.setVazoes qEntradaB qSaidaB).atualizar dt
  ({ s with
     tanque_A := tA, tanque_B := tB,
     tanque_C := tC.atualizar sq dt,
     tanque_D := tD.atualizar sq dt,
     tanque_E := tE.atualizar sq dt }).atualizarEstadoCache

/-- The `while tempo_restante > 1e-9` loop of `integrar_passo`, with an
explicit iteration budget (`fuel`); `integrarPasso` supplies a budget that is
provably enough for the requested interval. -/
def loopIntegrar (sq : ℚ → ℚ) (passoRef : ℚ) (controles : Controles) :
    ℕ → ℚ → SistemaCompleto → SistemaCompleto
  | 0, _, s => s
  | fuel + 1, restante, s =>
      if restante > eps9 then
        let passo := min passoRef restante
        loopIntegrar sq passoRef controles fuel (restante - passo)
          (s.atualizarSistema sq passo controles)
      else s

/-- Iteration budget for `loopIntegrar`: `⌈dt / passoRef⌉ + 1` iterations
always reach the `tempo_restante ≤ 1e-9` exit. -/
def fuelIntegrar (dt passoRef : ℚ) : ℕ := (⌈dt / passoRef⌉).toNat + 1

/-- `integrar_passo`: returns the current state unchanged when `dt ≤ 0`;
otherwise converts and caches the controls (raising on a bad length before any
mutation), validates the lower-cased method name (raising after the control
cache was already overwritten), and runs the integration loop — the reference
step is `dt` itself for `"euler"` and `DT_INTEGRACAO` for `"rk4"`. -/
def SistemaCompleto.integrarPasso (s : SistemaCompleto) (sq : ℚ → ℚ)
    (controles : VetorOuDict) (dt : ℚ) (metodo : String) :
    SistemaCompleto × Except String (List ℚ) :=
  if dt ≤ 0 then
    ((s.obterEstado).1, Except.ok (s.obterEstado).2)
  else
    match s.converterControlesParaDict controles with
    | .error e => (s, Except.error e)
    | .ok controlesDict =>
        let s1 := { s with controleCache := controlesDict }
        let m := minusculas (if metodo = "" then "rk4" else metodo)
        if m ≠ "rk4" ∧ m ≠ "euler" then
          (s1, Except.error "ValueError: Metodo de integracao deve ser rk4 ou euler.")
        else
          let passoRef := if m = "euler" then dt else params.DT_INTEGRACAO
          let sf := loopIntegrar sq passoRef controlesDict
            (fuelIntegrar dt passoRef) dt s1
          ((sf.obterEstado).1, Except.ok (sf.obterEstado).2)

/-- The five tanks as `SistemaCompleto.__init__` would build them (all initial
conditions sit at the operating point), with the two caches holding the
spec-modelled equilibrium vectors.  The actual `__init__` raises before
reaching this state because `ESTADO_OPERACIONAL_VETOR` is missing from the
parameter module (see `sistemaCompletoInit`). -/
def sistemaEquilibrio : SistemaCompleto :=
  { tanque_A := novoTanqueCilindrico params.raio_utilidades
      params.altura_maxima_utilidades params.hA_eq 0
    tanque_B := novoTanqueCilindrico params.raio_utilidades
      params.altura_maxima_utilidades params.hB_eq params.CB
    tanque_C := novoTanqueTroncoConico params.raio_inferior_processo
      params.raio_superior_processo params.altura_maxima_processo
      params.KV_VALVULA params.KP_BOMBA_AGUA params.KP_BOMBA_SALMOURA
      params.h_eq params.C_eq
    tanque_D := novoTanqueTroncoConico params.raio_inferior_processo
      params.raio_superior_processo params.altura_maxima_processo
      params.KV_VALVULA params.KP_BOMBA_AGUA params.KP_BOMBA_SALMOURA
      params.h_eq params.C_eq
    tanque_E := novoTanqueTroncoConico params.raio_inferior_processo
      params.raio_superior_processo params.altura_maxima_processo
      params.KV_VALVULA params.KP_BOMBA_AGUA params.KP_BOMBA_SALMOURA
      params.h_eq params.C_eq
    estadoCache := params.ESTADO_OPERACIONAL_VETOR
    controleCache := controlesDeLista params.CONTROLE_OPERACIONAL_VETOR }

/-- `SistemaCompleto.__init__` as written in the source: the five tanks are
built from defined parameters, but line 391 then reads
`params.ESTADO_OPERACIONAL_VETOR`, which `parametros_sistema.py` does not
define, so the constructor raises `AttributeError`. -/
def sistemaCompletoInit : Except String SistemaCompleto := do
  let _ ← params.obterAtributo "TANQUES_UTILIDADES"
  let _ ← params.obterAtributo "CONDICOES_INICIAIS"
  let _ ← params.obterAtributo "CB"
  let _ ← params.obterAtributo "TANQUES_PROCESSO"
  let _ ← params.obterAtributo "KV_VALVULAS"
  let _ ← params.obterAtributo "KP_BOMBAS_AGUA"
  let _ ← params.obterAtributo "KP_BOMBAS_SALMOURA"
  let _ ← params.obterAtributo "ESTADO_OPERACIONAL_VETOR"
  let _ ← params.obterAtributo "ORDEM_CONTROLES"
  let _ ← params.obterAtributo "CONTROLE_OPERACIONAL_VETOR"
  pure sistemaEquilibrio

/-! ## MPC controller (`controlador_mpc.py`) -/

/-- A 2-vector (per-tank measured state / reference, `[h, C]`). -/
structure Vetor2 where
  c1 : ℚ
  c2 : ℚ
deriving DecidableEq

/-- A 3-vector (per-tank actuator values, `[u1, u2, u3]`). -/
structure Vetor3 where
  c1 : ℚ
  c2 : ℚ
  c3 : ℚ
deriving DecidableEq

/-- Componentwise sum. -/
def Vetor3.soma (a b : Vetor3) : Vetor3 := ⟨a.c1 + b.c1, a.c2 + b.c2, a.c3 + b.c3⟩

/-- Componentwise difference. -/
def Vetor3.sub (a b : Vetor3) : Vetor3 := ⟨a.c1 - b.c1, a.c2 - b.c2, a.c3 - b.c3⟩

/-- Componentwise `np.clip`. -/
def Vetor3.clipar (u lo hi : Vetor3) : Vetor3 :=
  ⟨npClip u.c1 lo.c1 hi.c1, npClip u.c2 lo.c2 hi.c2, npClip u.c3 lo.c3 hi.c3⟩

/-- Componentwise interval membership `lo ≤ u ≤ hi`. -/
def Vetor3.dentro (u lo hi : Vetor3) : Prop :=
  lo.c1 ≤ u.c1 ∧ u.c1 ≤ hi.c1 ∧ lo.c2 ≤ u.c2 ∧ u.c2 ≤ hi.c2 ∧
  lo.c3 ≤ u.c3 ∧ u.c3 ≤ hi.c3

instance (u lo hi : Vetor3) : Decidable (u.dentro lo hi) := by
  unfold Vetor3.dentro; infer_instance

/-- Componentwise `|a - b| ≤ d`. -/
def Vetor3.difDentro (a b d : Vetor3) : Prop :=
  |a.c1 - b.c1| ≤ d.c1 ∧ |a.c2 - b.c2| ≤ d.c2 ∧ |a.c3 - b.c3| ≤ d.c3

instance (a b d : Vetor3) : Decidable (a.difDentro b d) := by
  unfold Vetor3.difDentro; infer_instance

/-- The per-controller constants a `ControladorMPC` reads from
`parametros_sistema.py` at construction. -/
structure ParametrosMPC where
  u_min : Vetor3
  u_max : Vetor3
  delta_u_max : Vetor3
  u_eq : Vetor3
  x_eq : Vetor2
deriving DecidableEq

/-- The constants every `ControladorMPC` instance (tanks C, D and E all share
the same limits and operating point) is constructed with. -/
def parametrosMPCPadrao : ParametrosMPC :=
  { u_min := ⟨0, 0, 0⟩
    u_max := ⟨1, 1, 1⟩
    delta_u_max := ⟨params.delta_u1_max, params.delta_u2_max, params.delta_u3_max⟩
    u_eq := ⟨params.u1_eq, params.u2_eq, params.u3_eq⟩
    x_eq := ⟨params.h_eq, params.C_eq⟩ }

/-- Mutable internal state of a `ControladorMPC` instance. -/
structure EstadoMPC where
  erro_integral : Vetor2
  u_anterior : Vetor3
deriving DecidableEq

/-- Internal state a fresh `ControladorMPC` starts with: zero integral error
and the equilibrium action as previous action. -/
def estadoMPCInicial : EstadoMPC :=
  { erro_integral := ⟨0, 0⟩
    u_anterior := ⟨params.u1_eq, params.u2_eq, params.u3_eq⟩ }

/-- Outcome of handing one CVXPY problem to the external solver: either the
solve call raised, or it returned a status string together with the value the
first control move `u[:, 0]` ends up with. -/
inductive ResultadoSolver where
  | excecao (msg : String)
  | resolvido (status : String) (u0 : Vetor3)
deriving DecidableEq

/-- `fator_conservador = 0.9`. -/
def fatorConservador : ℚ := 9/10

/-- `ControladorMPC.calcular_controle`, with the environment behaviour made
explicit: `excecaoConstrucao` is the exception CVXPY raises (if any) while the
optimization problem is being constructed — lines 213–311, which sit BEFORE
the `try` block, so such an exception propagates to the caller —, `solve1` is
the outcome of the main solve and `solve2` the outcome of the reduced-horizon
retry (its construction and solve sit inside a nested `try`, so an exception
there falls through to the conservative blend).  On an optimal main solve the
integral accumulator is advanced by the current tracking error (`Cd` is the
identity) and the previous action is set to the UNclipped optimum; on an
optimal retry only the previous action is updated; the conservative blend and
the exception fallback leave the internal state untouched. -/
def calcularControle (p : ParametrosMPC) (excecaoConstrucao : Option String)
    (solve1 solve2 : ResultadoSolver) (st : EstadoMPC)
    (xMedido referencia : Vetor2) : Except String (Vetor3 × EstadoMPC) :=
  let xDev : Vetor2 := ⟨xMedido.c1 - p.x_eq.c1, xMedido.c2 - p.x_eq.c2⟩
  let rDev : Vetor2 := ⟨referencia.c1 - p.x_eq.c1, referencia.c2 - p.x_eq.c2⟩
  match excecaoConstrucao with
  | some e => Except.error e
  | none =>
    match solve1 with
    | .excecao _ => Except.ok (st.u_anterior, st)
    | .resolvido status u0 =>
      if status = "optimal" ∨ status = "optimal_inaccurate" then
        let uOtimo := u0.soma p.u_eq
        let erroAtual : Vetor2 := ⟨xDev.c1 - rDev.c1, xDev.c2 - rDev.c2⟩
        let st2 : EstadoMPC :=
          { erro_integral := ⟨st.erro_integral.c1 + erroAtual.c1,
                             st.erro_integral.c2 + erroAtual.c2⟩
            u_anterior := uOtimo }
        Except.ok (uOtimo.clipar p.u_min p.u_max, st2)
      else
        let uConservador : Vetor3 :=
          ⟨st.u_anterior.c1 * fatorConservador + p.u_eq.c1 * (1 - fatorConservador),
           st.u_anterior.c2 * fatorConservador + p.u_eq.c2 * (1 - fatorConservador),
           st.u_anterior.c3 * fatorConservador + p.u_eq.c3 * (1 - fatorConservador)⟩
        match solve2 with
        | .excecao _ =>
            Except.ok (uConservador.clipar p.u_min p.u_max, st)
        | .resolvido status2 u0r =>
          if status2 = "optimal" ∨ status2 = "optimal_inaccurate" then
            let uR := u0r.soma p.u_eq
            Except.ok (uR.clipar p.u_min p.u_max, { st with u_anterior := uR })
          else
            Except.ok (uConservador.clipar p.u_min p.u_max, st)

/-- `ControladorMPC.resetar_integrador`. -/
def resetarIntegrador (st : EstadoMPC) : EstadoMPC :=
  { st with erro_integral := ⟨0, 0⟩ }

/-! ### The optimization formulation as data (for the reduced-retry claim)

Each cost term and each constraint appended while the CVXPY problem is being
built is encoded as one constructor application, tagged with its step index
and the concrete bound it carries; two problem constructions are compared by
comparing the lists they produce. -/

/-- One cost term of the MPC objective. -/
inductive TermoCusto where
  | penalizacaoFolga (peso : ℚ)
  | rastreamento (k : ℕ)
  | esforco (k : ℕ)
  | integral (k : ℕ)
deriving DecidableEq

/-- One constraint of the MPC problem. -/
inductive Restricao where
  | condicaoInicial
  | integralInicial
  | dinamica (k : ℕ)
  | recursaoIntegral (k : ℕ)
  | nivelMinComFolga (k : ℕ) (hmin : ℚ)
  | nivelMaxComFolga (k : ℕ) (hmax : ℚ)
  | concentracaoMin (k : ℕ) (cmin : ℚ)
  | concentracaoMax (k : ℕ) (cmax : ℚ)
  | tetoNivel (k : ℕ) (lim : ℚ)
  | pisoNivel (k : ℕ) (lim : ℚ)
  | tetoConcentracao (k : ℕ) (lim : ℚ)
  | pisoConcentracao (k : ℕ) (lim : ℚ)
  | controleMin (k : ℕ)
  | controleMax (k : ℕ)
  | taxaMin (k : ℕ)
  | taxaMax (k : ℕ)
deriving DecidableEq

/-- Whether a constraint belongs to the overshoot/undershoot ceiling family. -/
def Restricao.ehTetoOuPiso : Restricao → Bool
  | .tetoNivel _ _ => true
  | .pisoNivel _ _ => true
  | .tetoConcentracao _ _ => true
  | .pisoConcentracao _ _ => true
  | _ => false

/-- Constraints appended by one pass of the prediction loop of the ORIGINAL
problem (`calcular_controle` lines 240–294): dynamics, integral recursion,
slack-relaxed level bounds, hard concentration bounds, and — conditionally on
the sign pattern of the deviation reference (`np.any(r_dev > 0)` mixes both
axes for the level ceiling) — the overshoot/undershoot ceilings. -/
def passoPredicaoOriginal (rDev : Vetor2) (k : ℕ) : List Restricao :=
  [.dinamica k, .recursaoIntegral k,
   .nivelMinComFolga (k + 1) params.h_min, .nivelMaxComFolga (k + 1) params.h_max,
   .concentracaoMin (k + 1) params.C_min, .concentracaoMax (k + 1) params.C_max]
  ++ (if rDev.c1 > 0 ∨ rDev.c2 > 0 then
        [.tetoNivel (k + 1) (rDev.c1 * (1 + params.LIMITE_OVERSHOOT))] else [])
  ++ (if rDev.c1 < 0 ∨ rDev.c2 < 0 then
        [.pisoNivel (k + 1) (rDev.c1 * (1 - params.LIMITE_UNDERSHOOT))] else [])
  ++ (if rDev.c2 > 0 then
        [.tetoConcentracao (k + 1) (rDev.c2 * (1 + params.LIMITE_OVERSHOOT))] else [])
  ++ (if rDev.c2 < 0 then
        [.pisoConcentracao (k + 1) (rDev.c2 * (1 - params.LIMITE_UNDERSHOOT))] else [])

/-- Constraints appended by one pass of the control loop of the ORIGINAL
problem (lines 297–308). -/
def passoControleOriginal (k : ℕ) : List Restricao :=
  [.controleMin k, .controleMax k, .taxaMin k, .taxaMax k]

/-- Constraints appended by one pass of the prediction loop of the
REDUCED-HORIZON retry (lines 367–388): the same families as the original
except that no overshoot/undershoot ceiling is ever appended. -/
def passoPredicaoReduzido (k : ℕ) : List Restricao :=
  [.dinamica k, .recursaoIntegral k,
   .nivelMinComFolga (k + 1) params.h_min, .nivelMaxComFolga (k + 1) params.h_max,
   .concentracaoMin (k + 1) params.C_min, .concentracaoMax (k + 1) params.C_max]

/-- Constraints appended by one pass of the control loop of the retry
(lines 389–397). -/
def passoControleReduzido (k : ℕ) : List Restricao :=
  [.controleMin k, .controleMax k, .taxaMin k, .taxaMax k]

/-- Concatenation of the per-step constraint blocks for `k = 0, …, n-1`, in
loop order. -/
def juntarPassos (f : ℕ → List Restricao) : ℕ → List Restricao
  | 0 => []
  | n + 1 => juntarPassos f n ++ f n

/-- The constraint list of the ORIGINAL problem at horizons `(np, nc)`. -/
def restricoesOriginal (rDev : Vetor2) (np nc : ℕ) : List Restricao :=
  [.condicaoInicial, .integralInicial]
  ++ juntarPassos (passoPredicaoOriginal rDev) np
  ++ juntarPassos passoControleOriginal nc

/-- The constraint list of the REDUCED-HORIZON retry problem at horizons
`(np, nc)`. -/
def restricoesReduzido (np nc : ℕ) : List Restricao :=
  [.condicaoInicial, .integralInicial]
  ++ juntarPassos passoPredicaoReduzido np
  ++ juntarPassos passoControleReduzido nc

/-- Cost terms appended by one pass of the prediction loop of the ORIGINAL
problem (tracking, effort while `k < Nc`, integral penalty). -/
def passoCustoOriginal (nc : ℕ) (k : ℕ) : List TermoCusto :=
  [.rastreamento k] ++ (if k < nc then [.esforco k] else []) ++ [.integral k]

/-- Cost terms appended by one pass of the prediction loop of the retry. -/
def passoCustoReduzido (nc : ℕ) (k : ℕ) : List TermoCusto :=
  [.rastreamento k] ++ (if k < nc then [.esforco k] else []) ++ [.integral k]

/-- Concatenation of the per-step cost blocks for `k = 0, …, n-1`. -/
def juntarCustos (f : ℕ → List TermoCusto) : ℕ → List TermoCusto
  | 0 => []
  | n + 1 => juntarCustos f n ++ f n

/-- The cost-term list of the ORIGINAL problem: slack penalty `1e6` first,
then the per-step terms. -/
def custosOriginal (np nc : ℕ) : List TermoCusto :=
  [.penalizacaoFolga 1000000] ++ juntarCustos (passoCustoOriginal nc) np

/-- The cost-term list of the retry problem: `custo_r = 1e6 * cp.sum(slack)`
first, then the per-step terms. -/
def custosReduzido (np nc : ℕ) : List TermoCusto :=
  [.penalizacaoFolga 1000000] ++ juntarCustos (passoCustoReduzido nc) np

/-- `Np_reduzido = max(10, Np // 2)`. -/
def npReduzido (np : ℕ) : ℕ := max 10 (np / 2)

/-- `Nc_reduzido = max(5, Nc // 2)`. -/
def ncReduzido (nc : ℕ) : ℕ := max 5 (nc / 2)

/-! ## PI controllers and the control-system facade -/

/-- Mutable internal state of a `ControladorPID` instance. -/
structure EstadoPID where
  erro_integral : ℚ
deriving DecidableEq

/-- `ControladorPID.calcular_controle`: PI action with the integral clamped to
`[-10, 10]` and the output clamped to `[0, 1]`. -/
def calcularControlePID (kp ki setpoint : ℚ) (st : EstadoPID)
    (nivelMedido ts : ℚ) : ℚ × EstadoPID :=
  let erro := setpoint - nivelMedido
  let integralNovo := npClip (st.erro_integral + erro * ts) (-10) 10
  let u := kp * erro + ki * integralNovo
  (npClip u 0 1, ⟨integralNovo⟩)

/-- Mutable state of a `SistemaControle` instance: the three MPC internal
states, the two PI internal states and the sample period `Ts`. -/
structure SistemaControle where
  ts : ℚ
  mpcC : EstadoMPC
  mpcD : EstadoMPC
  mpcE : EstadoMPC
  pidA : EstadoPID
  pidB : EstadoPID
deriving DecidableEq

/-- A fresh `SistemaControle(Ts)`: MPC states at `estadoMPCInicial`, PI
integrators at zero (gains `Kp = 15`, `Ki = 0.25`, setpoints at equilibrium
are fixed constants of the instances). -/
def sistemaControleInicial (ts : ℚ) : SistemaControle :=
  { ts := ts
    mpcC := estadoMPCInicial
    mpcD := estadoMPCInicial
    mpcE := estadoMPCInicial
    pidA := ⟨0⟩
    pidB := ⟨0⟩ }

/-- Solver-environment behaviour for one `calcular_controle` call. -/
structure AmbienteMPC where
  excecaoConstrucao : Option String
  solve1 : ResultadoSolver
  solve2 : ResultadoSolver
deriving DecidableEq

/-- Solver-environment behaviour for the three MPC calls of one control cycle. -/
structure AmbienteControle where
  ambC : AmbienteMPC
  ambD : AmbienteMPC
  ambE : AmbienteMPC
deriving DecidableEq

/-- The measured-state dictionary handed to `calcular_acoes`. -/
structure EstadosMedidos where
  hA : ℚ
  hB : ℚ
  hC : ℚ
  cC : ℚ
  hD : ℚ
  cD : ℚ
  hE : ℚ
  cE : ℚ
deriving DecidableEq

/-- The reference dictionary handed to `calcular_acoes`. -/
structure Referencias where
  hC_ref : ℚ
  cC_ref : ℚ
  hD_ref : ℚ
  cD_ref : ℚ
  hE_ref : ℚ
  cE_ref : ℚ
deriving DecidableEq

/-- `SistemaControle.calcular_acoes`: the two PI loops run first, then the
three MPC calls in order C, D, E; an exception propagating out of an MPC call
aborts the cycle with the controller states mutated so far. -/
def calcularAcoes (amb : AmbienteControle) (cs : SistemaControle)
    (estados : EstadosMedidos) (referencias : Referencias) :
    SistemaControle × Except String Controles :=
  let rA := calcularControlePID 15 (1/4) params.hA_eq cs.pidA estados.hA cs.ts
  let rB := calcularControlePID 15 (1/4) params.hB_eq cs.pidB estados.hB cs.ts
  let cs1 := { cs with pidA := rA.2, pidB := rB.2 }
  match calcularControle parametrosMPCPadrao amb.ambC.excecaoConstrucao
      amb.ambC.solve1 amb.ambC.solve2 cs.mpcC
      ⟨estados.hC, estados.cC⟩ ⟨referencias.hC_ref, referencias.cC_ref⟩ with
  | .error e => (cs1, Except.error e)
  | .ok (uC, mC2) =>
    let cs2 := { cs1 with mpcC := mC2 }
    match calcularControle parametrosMPCPadrao amb.ambD.excecaoConstrucao
        amb.ambD.solve1 amb.ambD.solve2 cs.mpcD
        ⟨estados.hD, estados.cD⟩ ⟨referencias.hD_ref, referencias.cD_ref⟩ with
    | .error e => (cs2, Except.error e)
    | .ok (uD, mD2) =>
      let cs3 := { cs2 with mpcD := mD2 }
      match calcularControle parametrosMPCPadrao amb.ambE.excecaoConstrucao
          amb.ambE.solve1 amb.ambE.solve2 cs.mpcE
          ⟨estados.hE, estados.cE⟩ ⟨referencias.hE_ref, referencias.cE_ref⟩ with
      | .error e => (cs3, Except.error e)
      | .ok (uE, mE2) =>
        ({ cs3 with mpcE := mE2 },
         Except.ok
           { uA := rA.1, uB := rB.1,
             uC1 := uC.c1, uC2 := uC.c2, uC3 := uC.c3,
             uD1 := uD.c1, uD2 := uD.c2, uD3 := uD.c3,
             uE1 := uE.c1, uE2 := uE.c2, uE3 := uE.c3 })

/-! ## Real-time orchestrator (`realtime_service.py`) -/

/-- The `current_state` / `setpoints` dictionaries of the service (eight fixed
keys `tank_*_level` / `tank_*_concentration`). -/
structure VariaveisMapa where
  tank_a_level : ℚ
  tank_b_level : ℚ
  tank_c_level : ℚ
  tank_c_concentration : ℚ
  tank_d_level : ℚ
  tank_d_concentration : ℚ
  tank_e_level : ℚ
  tank_e_concentration : ℚ
deriving DecidableEq

/-- The `control_actions` dictionary of the service (eleven fixed keys). -/
structure ControlesMapa where
  tank_a_supply_valve : ℚ
  tank_b_supply_valve : ℚ
  tank_c_water_pump : ℚ
  tank_c_brine_pump : ℚ
  tank_c_outlet_valve : ℚ
  tank_d_water_pump : ℚ
  tank_d_brine_pump : ℚ
  tank_d_outlet_valve : ℚ
  tank_e_water_pump : ℚ
  tank_e_brine_pump : ℚ
  tank_e_outlet_valve : ℚ
deriving DecidableEq

/-- `current_state` built from a state vector in `ORDEM_ESTADOS` order. -/
def variaveisDeVetor (v : List ℚ) : VariaveisMapa :=
  { tank_a_level := v.getD 0 0, tank_b_level := v.getD 1 0,
    tank_c_level := v.getD 2 0, tank_c_concentration := v.getD 3 0,
    tank_d_level := v.getD 4 0, tank_d_concentration := v.getD 5 0,
    tank_e_level := v.getD 6 0, tank_e_concentration := v.getD 7 0 }

/-- The measured-state dictionary `_execute_mpc_step` builds from the state
vector. -/
def estadosDeVetor (v : List ℚ) : EstadosMedidos :=
  { hA := v.getD 0 0, hB := v.getD 1 0, hC := v.getD 2 0, cC := v.getD 3 0,
    hD := v.getD 4 0, cD := v.getD 5 0, hE := v.getD 6 0, cE := v.getD 7 0 }

/-- `control_actions` built from the `calcular_acoes` output dictionary. -/
def controlesMapaDeAcoes (a : Controles) : ControlesMapa :=
  { tank_a_supply_valve := a.uA, tank_b_supply_valve := a.uB,
    tank_c_water_pump := a.uC1, tank_c_brine_pump := a.uC2,
    tank_c_outlet_valve := a.uC3,
    tank_d_water_pump := a.uD1, tank_d_brine_pump := a.uD2,
    tank_d_outlet_valve := a.uD3,
    tank_e_water_pump := a.uE1, tank_e_brine_pump := a.uE2,
    tank_e_outlet_valve := a.uE3 }

/-- The 11-entry control vector `_integrate_physics_step` builds from
`control_actions`. -/
def vetorDeControlesMapa (c : ControlesMapa) : List ℚ :=
  [c.tank_a_supply_valve, c.tank_b_supply_valve,
   c.tank_c_water_pump, c.tank_c_brine_pump, c.tank_c_outlet_valve,
   c.tank_d_water_pump, c.tank_d_brine_pump, c.tank_d_outlet_valve,
   c.tank_e_water_pump, c.tank_e_brine_pump, c.tank_e_outlet_valve]

/-- The equilibrium `control_actions` dictionary written by `initialize`. -/
def controlesMapaEquilibrio : ControlesMapa :=
  { tank_a_supply_valve := params.uA_eq, tank_b_supply_valve := params.uB_eq,
    tank_c_water_pump := params.u1_eq, tank_c_brine_pump := params.u2_eq,
    tank_c_outlet_valve := params.u3_eq,
    tank_d_water_pump := params.u1_eq, tank_d_brine_pump := params.u2_eq,
    tank_d_outlet_valve := params.u3_eq,
    tank_e_water_pump := params.u1_eq, tank_e_brine_pump := params.u2_eq,
    tank_e_outlet_valve := params.u3_eq }

/-- The equilibrium state vector `initialize` and `reset` build from
`PONTO_OPERACAO`. -/
def estadoInicialVetor : List ℚ :=
  [params.hA_eq, params.hB_eq, params.h_eq, params.C_eq,
   params.h_eq, params.C_eq, params.h_eq, params.C_eq]

/-- State of a `RealTimeService` instance. -/
structure ServicoTempoReal where
  is_running : Bool
  is_paused : Bool
  session_id : Option String
  sampling_interval : ℚ
  control_interval : ℚ
  integration_step : ℚ
  modelo : Option SistemaCompleto
  controladores : Option SistemaControle
  current_state : VariaveisMapa
  setpoints : VariaveisMapa
  control_actions : ControlesMapa
  last_update_time : ℚ
  last_control_time : ℚ
deriving DecidableEq

/-- The initialization payload (`RealTimeConfig`). -/
structure ConfigTempoReal where
  sampling_interval : ℚ
  enable_noise : Bool
  noise_level : ℚ
deriving DecidableEq

/-- `RealTimeService.initialize` as written: it stores the config and a fresh
session id, then instantiates `ModeloSistemaTanques()`
(= `SistemaCompleto.__init__`), whose failure propagates; only if that
succeeded would it set the state to the equilibrium point, build the control
system, fill the three dictionaries, mark the session Running and re-base the
timestamps. -/
def inicializar (s : ServicoTempoReal) (cfg : ConfigTempoReal)
    (novaSessao : String) (agora : ℚ) : Except String (ServicoTempoReal × String) := do
  let s := { s with session_id := some novaSessao,
                    sampling_interval := cfg.sampling_interval }
  let modelo ← sistemaCompletoInit
  let modelo := (modelo.definirEstado (.vetor estadoInicialVetor)).1
  let controladores := sistemaControleInicial s.control_interval
  let estadoAtual := variaveisDeVetor estadoInicialVetor
  pure
    ({ s with
       modelo := some modelo
       controladores := some controladores
       current_state := estadoAtual
       setpoints := estadoAtual
       control_actions := controlesMapaEquilibrio
       is_running := true
       is_paused := false
       last_update_time := agora
       last_control_time := agora }, novaSessao)

/-- `_update_state_from_model`: no-op without a model, otherwise refresh
`current_state` from the (cache-refreshed) model state vector. -/
def atualizarEstadoDoModelo (s : ServicoTempoReal) : ServicoTempoReal :=
  match s.modelo with
  | none => s
  | some m =>
      let r := m.obterEstado
      { s with modelo := some r.1, current_state := variaveisDeVetor r.2 }

/-- `_execute_mpc_step`: skipped without model/controllers; otherwise reads
the model state, builds the reference dictionary from the setpoints, runs
`calcular_acoes` and overwrites `control_actions`; an exception out of
`calcular_acoes` propagates (there is no handler here). -/
def executarPassoMPC (amb : AmbienteControle) (s : ServicoTempoReal) :
    ServicoTempoReal × Except String Unit :=
  match s.modelo, s.controladores with
  | some m, some cs =>
      let r := m.obterEstado
      let estados := estadosDeVetor r.2
      let referencias : Referencias :=
        { hC_ref := s.setpoints.tank_c_level
          cC_ref := s.setpoints.tank_c_concentration
          hD_ref := s.setpoints.tank_d_level
          cD_ref := s.setpoints.tank_d_concentration
          hE_ref := s.setpoints.tank_e_level
          cE_ref := s.setpoints.tank_e_concentration }
      match calcularAcoes amb cs estados referencias with
      | (cs2, .error e) =>
          ({ s with modelo := some r.1, controladores := some cs2 }, Except.error e)
      | (cs2, .ok acoes) =>
          ({ s with modelo := some r.1, controladores := some cs2,
                    control_actions := controlesMapaDeAcoes acoes }, Except.ok ())
  | _, _ => (s, Except.ok ())

/-- `_integrate_physics_step`: skipped without a model; otherwise integrates
the model with method `"euler"` over the elapsed time using the last applied
control vector. -/
def integrarPassoFisica (sq : ℚ → ℚ) (s : ServicoTempoReal) (dt : ℚ) :
    ServicoTempoReal × Except String Unit :=
  match s.modelo with
  | none => (s, Except.ok ())
  | some m =>
      let u := vetorDeControlesMapa s.control_actions
      let r := m.integrarPasso sq (.vetor u) dt "euler"
      ({ s with modelo := some r.1 },
       match r.2 with
       | .ok _ => Except.ok ()
       | .error e => Except.error e)

/-- How one iteration of `run_realtime_loop` ends: it either loops again, or
breaks out of the `while` on `asyncio.CancelledError`, or breaks out of the
`while` from the catch-all `except Exception` handler (which logs and
`break`s). -/
inductive ResultadoIteracao where
  | continua
  | encerradaCancelada
  | encerradaErro
deriving DecidableEq

/-- Environment behaviour of one loop iteration: the solver outcomes of the
control cycle, whether `websocket.send_json` raises, and whether a
cancellation is delivered at an await point of this iteration. -/
structure AmbienteIteracao where
  ambControle : AmbienteControle
  falhaEnvio : Bool
  cancelada : Bool
deriving DecidableEq

/-- Step (1) of a loop iteration: run the control cycle when the elapsed wall
time since the last control execution reached the control period, re-basing
`last_control_time` only when the cycle did not raise. -/
def passoControleSeDevido (amb : AmbienteControle) (s : ServicoTempoReal)
    (agora : ℚ) : ServicoTempoReal × Except String Unit :=
  if agora - s.last_control_time ≥ s.control_interval then
    match executarPassoMPC amb s with
    | (s2, .ok _) => ({ s2 with last_control_time := agora }, Except.ok ())
    | (s2, .error e) => (s2, Except.error e)
  else (s, Except.ok ())

/-- Step (2) of a loop iteration: integrate the physics by the elapsed wall
time when it reached the integration period, re-basing `last_update_time`
only when the integration did not raise. -/
def passoFisicaSeDevida (sq : ℚ → ℚ) (s : ServicoTempoReal) (agora : ℚ) :
    ServicoTempoReal × Except String Unit :=
  if agora - s.last_update_time ≥ s.integration_step then
    match integrarPassoFisica sq s (agora - s.last_update_time) with
    | (s3, .ok _) => ({ s3 with last_update_time := agora }, Except.ok ())
    | (s3, .error e) => (s3, Except.error e)
  else (s, Except.ok ())

/-- One iteration of `run_realtime_loop`: when not paused, run the control
cycle if the control period elapsed, integrate physics if the integration
period elapsed, refresh the visible snapshot, and send the telemetry message.
`asyncio.CancelledError` ends the loop via its own handler; ANY other
exception — including a failed send — is caught by the catch-all handler,
logged, and ends the loop via `break`. -/
def iteracaoTempoReal (sq : ℚ → ℚ) (amb : AmbienteIteracao)
    (s : ServicoTempoReal) (agora : ℚ) : ServicoTempoReal × ResultadoIteracao :=
  if amb.cancelada then (s, .encerradaCancelada)
  else if s.is_paused then (s, .continua)
  else
    match passoControleSeDevido amb.ambControle s agora with
    | (s2, .error _) => (s2, .encerradaErro)
    | (s2, .ok _) =>
      match passoFisicaSeDevida sq s2 agora with
      | (s3, .error _) => (s3, .encerradaErro)
      | (s3, .ok _) =>
        let s4 := atualizarEstadoDoModelo s3
        if amb.falhaEnvio then (s4, .encerradaErro) else (s4, .continua)

/-- `RealTimeService.pause`. -/
def pausar (s : ServicoTempoReal) : ServicoTempoReal :=
  { s with is_paused := true }

/-- `RealTimeService.resume`: clears the pause flag and re-bases both
timestamps to the current time. -/
def retomar (s : ServicoTempoReal) (agora : ℚ) : ServicoTempoReal :=
  { s with is_paused := false, last_update_time := agora,
           last_control_time := agora }

/-- `RealTimeService.reset` as written: a no-op unless both the model and the
controllers exist; otherwise it sets the model state to the equilibrium
vector, refreshes `current_state` from the model, and copies that into
`setpoints`.  It touches nothing else — in particular neither
`control_actions` nor the two timestamps nor the controller states. -/
def resetar (s : ServicoTempoReal) : ServicoTempoReal :=
  match s.modelo, s.controladores with
  | some m, some _ =>
      let r := m.definirEstado (.vetor estadoInicialVetor)
      let s1 := atualizarEstadoDoModelo { s with modelo := some r.1 }
      { s1 with setpoints := s1.current_state }
  | _, _ => s

/-- `RealTimeService.shutdown`. -/
def desligar (s : ServicoTempoReal) : ServicoTempoReal :=
  { s with is_running := false }

/-! ## Predicates and exemplar values used by the theorems -/

/-- Physical-bounds invariant for a reservoir: level within `[0, altura_max]`. -/
def TanqueCilindrico.limitesOk (t : TanqueCilindrico) : Prop :=
  0 ≤ t.nivel ∧ t.nivel ≤ t.altura_max

/-- Physical-bounds invariant for a process tank: level within
`[0, altura_max]` and concentration within `[0, cB]`. -/
def TanqueTroncoConico.limitesOk (t : TanqueTroncoConico) : Prop :=
  0 ≤ t.nivel ∧ t.nivel ≤ t.altura_max ∧ 0 ≤ t.concentracao ∧ t.concentracao ≤ t.cB

/-- Physical-bounds invariant of the five-tank system (§3 of the spec). -/
def SistemaCompleto.limitesOk (s : SistemaCompleto) : Prop :=
  s.tanque_A.limitesOk ∧ s.tanque_B.limitesOk ∧ s.tanque_C.limitesOk ∧
  s.tanque_D.limitesOk ∧ s.tanque_E.limitesOk

/-- Entries of a control argument all within `[0, 1]`. -/
def VetorOuDict.entradasEm01 : VetorOuDict → Prop
  | .vetor v => ∀ x ∈ v, 0 ≤ x ∧ x ≤ 1
  | .dicionario d => ∀ p ∈ d, 0 ≤ p.2 ∧ p.2 ≤ 1
  | .nada => True

/-- The frustum-tank step exactly as the spec sentence describes it: the four
level stages are evaluated first with the concentration held at its initial
value, the new level is the standard RK4 combination; the four concentration
stages are then evaluated at the replayed intermediate levels `h0`,
`h0 + k1*dt/2`, `h0 + k2*dt/2`, `h0 + k3*dt` (not at the final updated level)
and the concentration advances with the standard RK4 weighted combination;
both stored states saturate to their physical ranges (§3). -/
def atualizarDescritoNaEspec (t : TanqueTroncoConico) (sq : ℚ → ℚ) (dt : ℚ) :
    TanqueTroncoConico :=
  let h0 := t.nivel
  let c0 := t.concentracao
  let estagioNivel := fun h => ({ t with nivel := h, concentracao := c0 }).derivadaNivel sq
  let estagioConc := fun h c =>
    ({ t with nivel := h, concentracao := c }).derivadaConcentracao sq
  let k1 := estagioNivel h0
  let k2 := estagioNivel (h0 + k1 * dt / 2)
  let k3 := estagioNivel (h0 + k2 * dt / 2)
  let k4 := estagioNivel (h0 + k3 * dt)
  let nivelNovo := h0 + (k1 + 2 * k2 + 2 * k3 + k4) * dt / 6
  let m1 := estagioConc h0 c0
  let m2 := estagioConc (h0 + k1 * dt / 2) (c0 + m1 * dt / 2)
  let m3 := estagioConc (h0 + k2 * dt / 2) (c0 + m2 * dt / 2)
  let m4 := estagioConc (h0 + k3 * dt) (c0 + m3 * dt)
  let concNova := c0 + (m1 + 2 * m2 + 2 * m3 + m4) * dt / 6
  { t with nivel := npClip nivelNovo 0 t.altura_max,
           concentracao := npClip concNova 0 t.cB }

/-- The solver-correctness hypothesis of the rate-limit claim: whenever a
solve reports a successful status, the decision value of the first control
move satisfies the actuator-bound and first-step rate constraints of the
problem it solved (both the original and the reduced problem carry exactly
these constraints on `u[:, 0]`, anchored at `u_anterior`). -/
def solverRespeita (p : ParametrosMPC) (st : EstadoMPC) (r : ResultadoSolver) : Prop :=
  ∀ status u0, r = .resolvido status u0 →
    (status = "optimal" ∨ status = "optimal_inaccurate") →
    (u0.soma p.u_eq).dentro p.u_min p.u_max ∧
    (u0.soma p.u_eq).difDentro st.u_anterior p.delta_u_max

/-- A concrete instantiation of the abstract `np.sqrt` parameter, used by the
closed concrete-evaluation theorems (each of them is insensitive to the values
this function takes). -/
def sqExemplo : ℚ → ℚ := fun _ => 0

/-- A concrete control vector (supply valves shut, pumps full on, outlet
valves shut) used by the concrete-evaluation theorems. -/
def listaControleExemplo : List ℚ := [0, 0, 1, 1, 0, 1, 1, 0, 1, 1, 0]

/-- A concrete running service state: model and controllers present, actuator
map all-zero (away from the equilibrium actuator map), timestamps at zero. -/
def servicoExemplo : ServicoTempoReal :=
  { is_running := true
    is_paused := false
    session_id := some "sessao-1"
    sampling_interval := 1/2
    control_interval := params.TS_CONTROLADOR
    integration_step := params.DT_INTEGRACAO
    modelo := some sistemaEquilibrio
    controladores := some (sistemaControleInicial params.TS_CONTROLADOR)
    current_state := variaveisDeVetor params.ESTADO_OPERACIONAL_VETOR
    setpoints := variaveisDeVetor params.ESTADO_OPERACIONAL_VETOR
    control_actions :=
      { tank_a_supply_valve := 0, tank_b_supply_valve := 0,
        tank_c_water_pump := 0, tank_c_brine_pump := 0, tank_c_outlet_valve := 0,
        tank_d_water_pump := 0, tank_d_brine_pump := 0, tank_d_outlet_valve := 0,
        tank_e_water_pump := 0, tank_e_brine_pump := 0, tank_e_outlet_valve := 0 }
    last_update_time := 0
    last_control_time := 0 }

/-- A solver environment in which every solve would succeed at the equilibrium
action deviation. -/
def ambienteMPCTranquilo : AmbienteMPC :=
  { excecaoConstrucao := none
    solve1 := .resolvido "optimal" ⟨0, 0, 0⟩
    solve2 := .resolvido "optimal" ⟨0, 0, 0⟩ }

/-- An iteration environment whose only anomaly is that the telemetry send
raises. -/
def ambienteFalhaEnvio : AmbienteIteracao :=
  { ambControle := { ambC := ambienteMPCTranquilo, ambD := ambienteMPCTranquilo,
                     ambE := ambienteMPCTranquilo }
    falhaEnvio := true
    cancelada := false }

/-- A service state before initialization ever succeeded: no model, no
controllers, running and not paused. -/
def servicoSemModelo : ServicoTempoReal :=
  { is_running := true
    is_paused := false
    session_id := none
    sampling_interval := 1/2
    control_interval := params.TS_CONTROLADOR
    integration_step := params.DT_INTEGRACAO
    modelo := none
    controladores := none
    current_state := variaveisDeVetor (List.replicate 8 0)
    setpoints := variaveisDeVetor (List.replicate 8 0)
    control_actions := controlesMapaEquilibrio
    last_update_time := 0
    last_control_time := 0 }

/-! ## Helper lemmas -/

theorem npClip_le (x lo hi : ℚ) : npClip x lo hi ≤ hi :=
  min_le_right _ _

theorem le_npClip (x lo hi : ℚ) (h : lo ≤ hi) : lo ≤ npClip x lo hi :=
  le_min (le_max_right _ _) h

theorem npClip_eq_of_mem (x lo hi : ℚ) (h1 : lo ≤ x) (h2 : x ≤ hi) :
    npClip x lo hi = x := by
  unfold npClip
  rw [max_eq_left h1, min_eq_left h2]

/-! ## C1 — initialization -/

/-- C1: the claim states that `initialize` builds the physics model and the
control system, sets the state, setpoint and actuator maps to the equilibrium
point, transitions to Running, and completes without raising.  In the code,
`SistemaCompleto.__init__` reads `params.ESTADO_OPERACIONAL_VETOR`, an
attribute `parametros_sistema.py` never defines, so every `initialize` call
raises `AttributeError` while instantiating the model and never reaches the
Running transition. -/
theorem c1_inicializar_sempre_lanca :
    ∀ (s : ServicoTempoReal) (cfg : ConfigTempoReal) (sessao : String) (agora : ℚ),
      inicializar s cfg sessao agora =
        Except.error
          "AttributeError: module parametros_sistema has no attribute ESTADO_OPERACIONAL_VETOR" :=
  fun _ _ _ _ => rfl

/-! ## C5 — RK4 coupling rule of the frustum tank -/

/-- C5: within one integration step of a frustum process tank, the four
level-derivative stages are computed first with the concentration held at its
initial value, producing the new level as `h0 + (k1+2k2+2k3+k4)·dt/6`; the
four concentration-derivative stages are then evaluated at the replayed
intermediate levels `h0`, `h0+k1·dt/2`, `h0+k2·dt/2`, `h0+k3·dt` (not at the
final updated level), and the concentration advances by the standard RK4
weighted combination; the stored states saturate to the physical ranges. -/
theorem c5_acoplamento_rk4 :
    ∀ (t : TanqueTroncoConico) (sq : ℚ → ℚ) (dt : ℚ),
      t.atualizar sq dt = atualizarDescritoNaEspec t sq dt :=
  fun _ _ _ => rfl

/-! ## Path lemmas for `definir_estado` / `integrar_passo` -/

theorem definirEstado_tamanho_errado (s : SistemaCompleto) (v : List ℚ)
    (h : v.length ≠ 8) :
    s.definirEstado (.vetor v) =
      (s, Except.error ("ValueError: Estado deve possuir 8 posicoes; recebido "
        ++ toString v.length ++ ".")) := by
  have h2 : ¬ (v.length = params.ORDEM_ESTADOS.length) := by
    simpa [params.ORDEM_ESTADOS] using h
  unfold SistemaCompleto.definirEstado SistemaCompleto.converterEstadoParaArray
  simp [h2]

theorem integrarPasso_dt_nao_positivo (s : SistemaCompleto) (sq : ℚ → ℚ)
    (c : VetorOuDict) (dt : ℚ) (m : String) (h : dt ≤ 0) :
    s.integrarPasso sq c dt m = ((s.obterEstado).1, Except.ok (s.obterEstado).2) := by
  unfold SistemaCompleto.integrarPasso
  simp [h]

theorem integrarPasso_controle_tamanho_errado (s : SistemaCompleto) (sq : ℚ → ℚ)
    (v : List ℚ) (dt : ℚ) (m : String) (hdt : 0 < dt) (h : v.length ≠ 11) :
    s.integrarPasso sq (.vetor v) dt m =
      (s, Except.error ("ValueError: Controle deve possuir 11 posicoes; recebido "
        ++ toString v.length ++ ".")) := by
  have h1 : ¬ dt ≤ 0 := not_le.mpr hdt
  have h2 : ¬ (v.length = params.ORDEM_CONTROLES.length) := by
    simpa [params.ORDEM_CONTROLES] using h
  unfold SistemaCompleto.integrarPasso SistemaCompleto.converterControlesParaDict
  simp [h1, h2]

theorem integrarPasso_metodo_desconhecido (s : SistemaCompleto) (sq : ℚ → ℚ)
    (v : List ℚ) (dt : ℚ) (m : String) (hdt : 0 < dt) (hv : v.length = 11)
    (hm0 : m ≠ "") (h1 : minusculas m ≠ "rk4") (h2 : minusculas m ≠ "euler") :
    s.integrarPasso sq (.vetor v) dt m =
      ({ s with controleCache := cliparControles (controlesDeLista v) },
       Except.error "ValueError: Metodo de integracao deve ser rk4 ou euler.") := by
  have h0 : ¬ dt ≤ 0 := not_le.mpr hdt
  have hv2 : v.length = params.ORDEM_CONTROLES.length := by
    simpa [params.ORDEM_CONTROLES] using hv
  unfold SistemaCompleto.integrarPasso SistemaCompleto.converterControlesParaDict
  simp [h0, hv2, hm0, h1, h2]

theorem loopIntegrar_succ (sq : ℚ → ℚ) (p : ℚ) (c : Controles) (fuel : ℕ)
    (r : ℚ) (s : SistemaCompleto) :
    loopIntegrar sq p c (fuel + 1) r s =
      if r > eps9 then
        loopIntegrar sq p c fuel (r - min p r) (s.atualizarSistema sq (min p r) c)
      else s :=
  rfl

theorem integrarPasso_euler_passo_unico (s : SistemaCompleto) (sq : ℚ → ℚ)
    (v : List ℚ) (dt : ℚ) (hdt : eps9 < dt) (hv : v.length = 11) :
    s.integrarPasso sq (.vetor v) dt "euler" =
      (let cd := cliparControles (controlesDeLista v)
       let s2 := ({ s with controleCache := cd }).atualizarSistema sq dt cd
       ((s2.obterEstado).1, Except.ok (s2.obterEstado).2)) := by
  have heps : (0 : ℚ) < eps9 := by norm_num [eps9]
  have hdt0 : ¬ dt ≤ 0 := not_le.mpr (lt_trans heps hdt)
  have hne : dt ≠ 0 := ne_of_gt (lt_trans heps hdt)
  have hv2 : v.length = params.ORDEM_CONTROLES.length := by
    simpa [params.ORDEM_CONTROLES] using hv
  have hfuel : fuelIntegrar dt dt = 2 := by
    unfold fuelIntegrar
    rw [div_self hne]
    norm_num
  unfold SistemaCompleto.integrarPasso SistemaCompleto.converterControlesParaDict
  simp only [hdt0, if_false, if_neg, hv2, if_pos, ite_true, ite_false,
    reduceIte]
  have hlower : minusculas "euler" = "euler" := rfl
  simp only [show ("euler" = "") = False by simp, if_false, ite_false, hlower]
  have hcond : ¬ ("euler" ≠ "rk4" ∧ "euler" ≠ "euler") := by simp
  rw [if_neg hcond]
  simp only [show ("euler" = "euler") = True by simp, if_true, ite_true]
  rw [hfuel, show (2 : ℕ) = 1 + 1 from rfl, loopIntegrar_succ, if_pos hdt,
    min_self, sub_self, show (1 : ℕ) = 0 + 1 from rfl, loopIntegrar_succ,
    if_neg (by norm_num [eps9])]

/-! ## C3 — invalid arguments to `set_state` / `advance` -/

/-- C3 counterexample: a call to `advance` with a negative `dt` does NOT raise
an `InvalidArgument` error — `integrar_passo` silently returns the current
state (refreshing the state cache) and reports no error. -/
theorem c3_contraexemplo :
    (sistemaEquilibrio.integrarPasso sqExemplo (.vetor listaControleExemplo)
      (-1) "rk4").2 = Except.ok params.ESTADO_OPERACIONAL_VETOR := by
  rw [integrarPasso_dt_nao_positivo _ _ _ _ _ (by norm_num)]
  rfl

/-- C3 (amended): wrong-length state or control vectors do fail fast with a
`ValueError` and no mutation, but (i) a negative `dt` is NOT an error —
`advance` silently returns the current state — and (ii) an unrecognized
integration-method name raises only AFTER the control cache has already been
overwritten with the clamped control vector (a partial mutation). -/
theorem c3_validacao_argumentos :
    (∀ (s : SistemaCompleto) (v : List ℚ), v.length ≠ 8 →
      s.definirEstado (.vetor v) =
        (s, Except.error ("ValueError: Estado deve possuir 8 posicoes; recebido "
          ++ toString v.length ++ "."))) ∧
    (∀ (s : SistemaCompleto) (sq : ℚ → ℚ) (v : List ℚ) (dt : ℚ) (m : String),
      0 < dt → v.length ≠ 11 →
      s.integrarPasso sq (.vetor v) dt m =
        (s, Except.error ("ValueError: Controle deve possuir 11 posicoes; recebido "
          ++ toString v.length ++ "."))) ∧
    (∀ (s : SistemaCompleto) (sq : ℚ → ℚ) (c : VetorOuDict) (dt : ℚ) (m : String),
      dt ≤ 0 →
      s.integrarPasso sq c dt m = ((s.obterEstado).1, Except.ok (s.obterEstado).2)) ∧
    (∀ (s : SistemaCompleto) (sq : ℚ → ℚ) (v : List ℚ) (dt : ℚ) (m : String),
      0 < dt → v.length = 11 → m ≠ "" →
      minusculas m ≠ "rk4" → minusculas m ≠ "euler" →
      s.integrarPasso sq (.vetor v) dt m =
        ({ s with controleCache := cliparControles (controlesDeLista v) },
         Except.error "ValueError: Metodo de integracao deve ser rk4 ou euler.")) :=
  ⟨fun s v h => definirEstado_tamanho_errado s v h,
   fun s sq v dt m hdt h => integrarPasso_controle_tamanho_errado s sq v dt m hdt h,
   fun s sq c dt m h => integrarPasso_dt_nao_positivo s sq c dt m h,
   fun s sq v dt m hdt hv hm0 h1 h2 =>
     integrarPasso_metodo_desconhecido s sq v dt m hdt hv hm0 h1 h2⟩

/-- C3 witness: the amended statement applied at concrete inputs — a 3-entry
state vector, a 2-entry control vector, `dt = -1`, and the method name
`"heun"`. -/
theorem c3_testemunha :
    (([ (1 : ℚ), 2, 3 ] : List ℚ).length ≠ 8 ∧ (0 : ℚ) < 1 ∧
      (([ (0 : ℚ), 0 ] : List ℚ).length ≠ 11 ∧ (- 1 : ℚ) ≤ 0) ∧
      listaControleExemplo.length = 11 ∧ ("heun" : String) ≠ "" ∧
      minusculas "heun" ≠ "rk4" ∧ minusculas "heun" ≠ "euler") ∧
    sistemaEquilibrio.definirEstado (.vetor [1, 2, 3]) =
      (sistemaEquilibrio,
       Except.error "ValueError: Estado deve possuir 8 posicoes; recebido 3.") ∧
    sistemaEquilibrio.integrarPasso sqExemplo (.vetor [0, 0]) 1 "rk4" =
      (sistemaEquilibrio,
       Except.error "ValueError: Controle deve possuir 11 posicoes; recebido 2.") ∧
    sistemaEquilibrio.integrarPasso sqExemplo (.vetor listaControleExemplo)
        (-1) "heun" =
      ((sistemaEquilibrio.obterEstado).1, Except.ok (sistemaEquilibrio.obterEstado).2) ∧
    sistemaEquilibrio.integrarPasso sqExemplo (.vetor listaControleExemplo) 1 "heun" =
      ({ sistemaEquilibrio with
          controleCache := cliparControles (controlesDeLista listaControleExemplo) },
       Except.error "ValueError: Metodo de integracao deve ser rk4 ou euler.") := by
  refine ⟨⟨by simp, by norm_num, ⟨by simp, by norm_num⟩, by simp [listaControleExemplo],
    by simp, by simp [minusculas], by simp [minusculas]⟩, ?_, ?_, ?_, ?_⟩
  · exact c3_validacao_argumentos.1 sistemaEquilibrio [1, 2, 3] (by simp)
  · exact c3_validacao_argumentos.2.1 sistemaEquilibrio sqExemplo [0, 0] 1 "rk4"
      (by norm_num) (by simp)
  · exact c3_validacao_argumentos.2.2.1 sistemaEquilibrio sqExemplo
      (.vetor listaControleExemplo) (-1) "heun" (by norm_num)
  · exact c3_validacao_argumentos.2.2.2 sistemaEquilibrio sqExemplo
      listaControleExemplo 1 "heun" (by norm_num) (by simp [listaControleExemplo])
      (by simp) (by simp [minusculas]) (by simp [minusculas])

/-! ## C4 — `advance` with method `"euler"` -/

/-- C4 counterexample: with method `"euler"`, `advance` does NOT perform a
first-order explicit Euler update `state + derivative(state, u)·dt`.  At the
equilibrium state with the pumps full on and the outlet valves shut, the level
of tank C after `advance(u, 1.0, "euler")` differs from the Euler prediction
`h + (dh/dt)·1` (the code performs one full coupled RK4 update instead). -/
theorem c4_contraexemplo :
    (sistemaEquilibrio.integrarPasso sqExemplo (.vetor listaControleExemplo)
        1 "euler").1.tanque_C.nivel ≠
      sistemaEquilibrio.tanque_C.nivel +
        ((sistemaEquilibrio.tanque_C.setControles 1 1 0).derivadaNivel sqExemplo) * 1 := by
  rw [integrarPasso_euler_passo_unico _ _ _ _ (by norm_num [eps9])
    (by simp [listaControleExemplo])]
  norm_num [SistemaCompleto.atualizarSistema, SistemaCompleto.atualizarEstadoCache,
    SistemaCompleto.montarEstadoArray, SistemaCompleto.obterEstado,
    TanqueTroncoConico.atualizar, TanqueCilindrico.atualizar,
    TanqueTroncoConico.setControles, TanqueCilindrico.setVazoes,
    TanqueTroncoConico.derivadaNivel, TanqueTroncoConico.derivadaConcentracao,
    TanqueCilindrico.derivadaNivel,
    TanqueTroncoConico.calcularVazoes, TanqueTroncoConico.calcularArea,
    TanqueTroncoConico.calcularVolume, TanqueTroncoConico.calcularRaio,
    npClip, npPi, eps9, sistemaEquilibrio, novoTanqueCilindrico,
    novoTanqueTroncoConico, cliparControles, controlesDeLista,
    listaControleExemplo, sqExemplo,
    params.raio_inferior_processo, params.raio_superior_processo,
    params.altura_maxima_processo, params.raio_utilidades,
    params.altura_maxima_utilidades, params.KV_VALVULA, params.KP_BOMBA_AGUA,
    params.KP_BOMBA_SALMOURA, params.KV_SUPRIMENTO_A, params.KV_SUPRIMENTO_B,
    params.CB, params.hA_eq, params.hB_eq, params.h_eq, params.C_eq,
    params.ESTADO_OPERACIONAL_VETOR, params.CONTROLE_OPERACIONAL_VETOR,
    params.uA_eq, params.uB_eq, params.u1_eq, params.u2_eq, params.u3_eq,
    min_def, max_def]

/-- C4 (amended): for every control vector and every `dt` above the loop
epsilon `1e-9`, `advance` with method `"euler"` performs exactly ONE coupled
RK4 system update over the full interval `dt` (no micro-step subdivision): the
clamped controls are cached and applied, `atualizar_sistema` runs once with
step `dt`, and the refreshed state vector is returned. -/
theorem c4_euler_passo_unico_rk4 :
    ∀ (s : SistemaCompleto) (sq : ℚ → ℚ) (v : List ℚ) (dt : ℚ),
      eps9 < dt → v.length = 11 →
      s.integrarPasso sq (.vetor v) dt "euler" =
        (let cd := cliparControles (controlesDeLista v)
         let s2 := ({ s with controleCache := cd }).atualizarSistema sq dt cd
         ((s2.obterEstado).1, Except.ok (s2.obterEstado).2)) :=
  fun s sq v dt hdt hv => integrarPasso_euler_passo_unico s sq v dt hdt hv

/-- C4 witness: the amended statement applied at the equilibrium system,
the exemplar control vector and `dt = 1`. -/
theorem c4_testemunha :
    (eps9 < (1 : ℚ) ∧ listaControleExemplo.length = 11) ∧
    sistemaEquilibrio.integrarPasso sqExemplo (.vetor listaControleExemplo)
        1 "euler" =
      (let cd := cliparControles (controlesDeLista listaControleExemplo)
       let s2 := ({ sistemaEquilibrio with
                    controleCache := cd }).atualizarSistema sqExemplo 1 cd
       ((s2.obterEstado).1, Except.ok (s2.obterEstado).2)) :=
  ⟨⟨by norm_num [eps9], by simp [listaControleExemplo]⟩,
   c4_euler_passo_unico_rk4 sistemaEquilibrio sqExemplo listaControleExemplo 1
     (by norm_num [eps9]) (by simp [listaControleExemplo])⟩

/-! ## C6 — bounds preservation -/

theorem cil_atualizar_limitesOk (t : TanqueCilindrico) (dt : ℚ)
    (h : t.limitesOk) : (t.atualizar dt).limitesOk := by
  obtain ⟨h1, h2⟩ := h
  have hmax : (0 : ℚ) ≤ t.altura_max := le_trans h1 h2
  exact ⟨le_npClip _ _ _ hmax, npClip_le _ _ _⟩

theorem cone_atualizar_limitesOk (t : TanqueTroncoConico) (sq : ℚ → ℚ) (dt : ℚ)
    (h : t.limitesOk) : (t.atualizar sq dt).limitesOk := by
  obtain ⟨h1, h2, h3, h4⟩ := h
  have hmax : (0 : ℚ) ≤ t.altura_max := le_trans h1 h2
  have hcb : (0 : ℚ) ≤ t.cB := le_trans h3 h4
  exact ⟨le_npClip _ _ _ hmax, npClip_le _ _ _, le_npClip _ _ _ hcb, npClip_le _ _ _⟩

theorem atualizarSistema_limitesOk (s : SistemaCompleto) (sq : ℚ → ℚ) (dt : ℚ)
    (c : Controles) (h : s.limitesOk) : (s.atualizarSistema sq dt c).limitesOk := by
  obtain ⟨hA, hB, hC, hD, hE⟩ := h
  exact ⟨cil_atualizar_limitesOk _ _ hA, cil_atualizar_limitesOk _ _ hB,
    cone_atualizar_limitesOk _ _ _ hC, cone_atualizar_limitesOk _ _ _ hD,
    cone_atualizar_limitesOk _ _ _ hE⟩

theorem loopIntegrar_limitesOk (sq : ℚ → ℚ) (p : ℚ) (c : Controles) :
    ∀ (fuel : ℕ) (r : ℚ) (s : SistemaCompleto), s.limitesOk →
      (loopIntegrar sq p c fuel r s).limitesOk := by
  intro fuel
  induction fuel with
  | zero => intro r s h; exact h
  | succ n ih =>
      intro r s h
      rw [loopIntegrar_succ]
      split
      · exact ih _ _ (atualizarSistema_limitesOk _ _ _ _ h)
      · exact h

/-- C6: for every starting state within physical bounds and every control
argument with entries in `[0, 1]`, after one `advance` call — which runs one
or many integration micro-steps — every tank level lies in
`[0, altura_max]` and every process-tank concentration lies in `[0, cB]`:
the physical-bounds predicate is preserved by `integrar_passo` on every one
of its return paths. -/
theorem c6_preservacao_limites :
    ∀ (s : SistemaCompleto) (sq : ℚ → ℚ) (ctrl : VetorOuDict) (dt : ℚ)
      (m : String), s.limitesOk → ctrl.entradasEm01 →
      ((s.integrarPasso sq ctrl dt m).1).limitesOk := by
  intro s sq ctrl dt m h _
  unfold SistemaCompleto.integrarPasso
  split
  · exact h
  · split
    · exact h
    · dsimp only
      by_cases hm : minusculas (if m = "" then "rk4" else m) ≠ "rk4" ∧
          minusculas (if m = "" then "rk4" else m) ≠ "euler"
      · rw [if_pos hm]
        exact h
      · rw [if_neg hm]
        exact loopIntegrar_limitesOk _ _ _ _ _ _ h

/-- C6 witness: the equilibrium system is within bounds, the exemplar control
vector has entries in `[0, 1]`, and the theorem applies to the corresponding
`advance(u, 1.0, "rk4")` call. -/
theorem c6_testemunha :
    (sistemaEquilibrio.limitesOk ∧
      (VetorOuDict.vetor listaControleExemplo).entradasEm01) ∧
    ((sistemaEquilibrio.integrarPasso sqExemplo (.vetor listaControleExemplo)
        1 "rk4").1).limitesOk := by
  have h1 : sistemaEquilibrio.limitesOk := by
    refine ⟨⟨?_, ?_⟩, ⟨?_, ?_⟩, ⟨?_, ?_, ?_, ?_⟩, ⟨?_, ?_, ?_, ?_⟩, ⟨?_, ?_, ?_, ?_⟩⟩ <;>
      norm_num [sistemaEquilibrio, novoTanqueCilindrico, novoTanqueTroncoConico,
        params.hA_eq, params.hB_eq, params.h_eq, params.C_eq, params.CB,
        params.altura_maxima_processo, params.altura_maxima_utilidades]
  have h2 : (VetorOuDict.vetor listaControleExemplo).entradasEm01 := by
    intro x hx
    fin_cases hx <;> norm_num
  exact ⟨⟨h1, h2⟩,
    c6_preservacao_limites sistemaEquilibrio sqExemplo
      (.vetor listaControleExemplo) 1 "rk4" h1 h2⟩

/-! ## C2 — MPC exception handling -/

theorem clipar_dentro (u lo hi : Vetor3) (h1 : lo.c1 ≤ hi.c1)
    (h2 : lo.c2 ≤ hi.c2) (h3 : lo.c3 ≤ hi.c3) : (u.clipar lo hi).dentro lo hi :=
  ⟨le_npClip _ _ _ h1, npClip_le _ _ _, le_npClip _ _ _ h2, npClip_le _ _ _,
   le_npClip _ _ _ h3, npClip_le _ _ _⟩

/-- C2 counterexample: a hard exception raised while the optimization problem
is being CONSTRUCTED (lines 213–311 sit before the `try` block — e.g. a
broadcast error from a mis-shaped reference while the tracking-error
expressions are built) is NOT caught: `calcular_controle` propagates it to the
caller, against the claim that no exception ever propagates. -/
theorem c2_contraexemplo :
    calcularControle parametrosMPCPadrao
        (some "ValueError: operands could not be broadcast together")
        (.resolvido "optimal" ⟨0, 0, 0⟩) (.resolvido "optimal" ⟨0, 0, 0⟩)
        estadoMPCInicial ⟨3/2, 180⟩ ⟨17/10, 200⟩ =
      Except.error "ValueError: operands could not be broadcast together" :=
  rfl

/-- C2 (amended): when the problem CONSTRUCTION raises no exception,
`calcular_controle` never propagates an exception: it always returns a value,
a hard exception during the solve is caught with the stored previous action
returned unchanged (and the internal state untouched), and on every path where
the main solve ran to completion the returned vector is clipped into
`[u_min, u_max]`.  An exception raised during construction, by contrast,
propagates (see the counterexample), and the solve-exception fallback returns
the previous action as stored, without re-clipping it. -/
theorem c2_tratamento_excecoes :
    ∀ (p : ParametrosMPC) (s1 s2 : ResultadoSolver) (st : EstadoMPC)
      (x r : Vetor2),
      p.u_min.c1 ≤ p.u_max.c1 → p.u_min.c2 ≤ p.u_max.c2 →
      p.u_min.c3 ≤ p.u_max.c3 →
      (∃ y, calcularControle p none s1 s2 st x r = Except.ok y) ∧
      (∀ msg, calcularControle p none (.excecao msg) s2 st x r =
        Except.ok (st.u_anterior, st)) ∧
      (∀ status u0 y st2,
        calcularControle p none (.resolvido status u0) s2 st x r =
          Except.ok (y, st2) → y.dentro p.u_min p.u_max) := by
  intro p s1 s2 st x r h1 h2 h3
  refine ⟨?_, fun msg => rfl, ?_⟩
  · cases s1 with
    | excecao msg => exact ⟨_, rfl⟩
    | resolvido status u0 =>
        simp only [calcularControle]
        by_cases hs : status = "optimal" ∨ status = "optimal_inaccurate"
        · rw [if_pos hs]
          exact ⟨_, rfl⟩
        · rw [if_neg hs]
          cases s2 with
          | excecao msg => exact ⟨_, rfl⟩
          | resolvido status2 u0r =>
              dsimp only
              by_cases hs2 : status2 = "optimal" ∨ status2 = "optimal_inaccurate"
              · rw [if_pos hs2]
                exact ⟨_, rfl⟩
              · rw [if_neg hs2]
                exact ⟨_, rfl⟩
  · intro status u0 y st2 hEq
    simp only [calcularControle] at hEq
    by_cases hs : status = "optimal" ∨ status = "optimal_inaccurate"
    · rw [if_pos hs] at hEq
      simp only [Except.ok.injEq, Prod.mk.injEq] at hEq
      obtain ⟨rfl, -⟩ := hEq
      exact clipar_dentro _ _ _ h1 h2 h3
    · rw [if_neg hs] at hEq
      cases s2 with
      | excecao msg =>
          simp only [Except.ok.injEq, Prod.mk.injEq] at hEq
          obtain ⟨rfl, -⟩ := hEq
          exact clipar_dentro _ _ _ h1 h2 h3
      | resolvido status2 u0r =>
          dsimp only at hEq
          by_cases hs2 : status2 = "optimal" ∨ status2 = "optimal_inaccurate"
          · rw [if_pos hs2] at hEq
            simp only [Except.ok.injEq, Prod.mk.injEq] at hEq
            obtain ⟨rfl, -⟩ := hEq
            exact clipar_dentro _ _ _ h1 h2 h3
          · rw [if_neg hs2] at hEq
            simp only [Except.ok.injEq, Prod.mk.injEq] at hEq
            obtain ⟨rfl, -⟩ := hEq
            exact clipar_dentro _ _ _ h1 h2 h3

/-- C2 witness: the amended statement applied at the standard controller
parameters with a solve that raises: the previous action (here the fresh
equilibrium action) is returned unchanged. -/
theorem c2_testemunha :
    (parametrosMPCPadrao.u_min.c1 ≤ parametrosMPCPadrao.u_max.c1 ∧
     parametrosMPCPadrao.u_min.c2 ≤ parametrosMPCPadrao.u_max.c2 ∧
     parametrosMPCPadrao.u_min.c3 ≤ parametrosMPCPadrao.u_max.c3) ∧
    calcularControle parametrosMPCPadrao none (.excecao "SolverError")
        (.resolvido "optimal" ⟨0, 0, 0⟩) estadoMPCInicial ⟨3/2, 180⟩
        ⟨17/10, 200⟩ =
      Except.ok (estadoMPCInicial.u_anterior, estadoMPCInicial) :=
  ⟨⟨by norm_num [parametrosMPCPadrao], by norm_num [parametrosMPCPadrao],
    by norm_num [parametrosMPCPadrao]⟩,
   (c2_tratamento_excecoes parametrosMPCPadrao (.excecao "SolverError")
      (.resolvido "optimal" ⟨0, 0, 0⟩) estadoMPCInicial ⟨3/2, 180⟩ ⟨17/10, 200⟩
      (by norm_num [parametrosMPCPadrao]) (by norm_num [parametrosMPCPadrao])
      (by norm_num [parametrosMPCPadrao])).2.1 "SolverError"⟩

/-! ## C8 — rate-limit respect on every return path -/

theorem clipar_eq_of_dentro (u lo hi : Vetor3) (h : u.dentro lo hi) :
    u.clipar lo hi = u := by
  obtain ⟨a1, b1, a2, b2, a3, b3⟩ := h
  unfold Vetor3.clipar
  rw [npClip_eq_of_mem _ _ _ a1 b1, npClip_eq_of_mem _ _ _ a2 b2,
    npClip_eq_of_mem _ _ _ a3 b3]

theorem difDentro_refl (a d : Vetor3) (h1 : 0 ≤ d.c1) (h2 : 0 ≤ d.c2)
    (h3 : 0 ≤ d.c3) : a.difDentro a d := by
  unfold Vetor3.difDentro
  simp only [sub_self, abs_zero]
  exact ⟨h1, h2, h3⟩

/-- The conservative blend `0.9·u_anterior + 0.1·u_eq`, clipped to the
actuator box, moves each actuator by at most its rate limit whenever the
previous action lies inside the box (it lands inside the box, so the clip is
the identity, and the move is `0.1·|u_eq − u_anterior|`, below every
`delta_u*_max` at the standard parameters). -/
theorem conservador_propriedades (ua : Vetor3)
    (hA : ua.dentro parametrosMPCPadrao.u_min parametrosMPCPadrao.u_max) :
    ((⟨ua.c1 * fatorConservador + parametrosMPCPadrao.u_eq.c1 * (1 - fatorConservador),
       ua.c2 * fatorConservador + parametrosMPCPadrao.u_eq.c2 * (1 - fatorConservador),
       ua.c3 * fatorConservador + parametrosMPCPadrao.u_eq.c3 * (1 - fatorConservador)⟩ :
        Vetor3).clipar parametrosMPCPadrao.u_min
        parametrosMPCPadrao.u_max).difDentro ua parametrosMPCPadrao.delta_u_max := by
  obtain ⟨a1, b1, a2, b2, a3, b3⟩ := hA
  simp only [parametrosMPCPadrao, params.u1_eq, params.u2_eq, params.u3_eq,
    params.delta_u1_max, params.delta_u2_max, params.delta_u3_max,
    fatorConservador] at a1 b1 a2 b2 a3 b3 ⊢
  rw [Vetor3.clipar]
  rw [npClip_eq_of_mem _ _ _ (by linarith) (by linarith),
    npClip_eq_of_mem _ _ _ (by linarith) (by linarith),
    npClip_eq_of_mem _ _ _ (by linarith) (by linarith)]
  refine ⟨?_, ?_, ?_⟩ <;> rw [abs_le] <;> constructor <;> linarith

/-- C8: for every solver environment and every reachable controller state
(previous action inside the actuator box), under the hypothesis that a
successful solver status implies the returned first move satisfies the
actuator-bound and first-step rate constraints, EVERY value returned by
`calcular_controle` — optimal solve, reduced-horizon retry, conservative
blend, or solve-exception fallback — differs from the stored previous action
by at most the per-actuator rate limit, componentwise; moreover the stored
previous action stays inside the actuator box, so the hypothesis is preserved
along any sequence of solves. -/
theorem c8_respeito_taxa :
    ∀ (exc : Option String) (s1 s2 : ResultadoSolver) (st : EstadoMPC)
      (x r : Vetor2),
      st.u_anterior.dentro parametrosMPCPadrao.u_min parametrosMPCPadrao.u_max →
      solverRespeita parametrosMPCPadrao st s1 →
      solverRespeita parametrosMPCPadrao st s2 →
      ∀ y st2,
        calcularControle parametrosMPCPadrao exc s1 s2 st x r =
          Except.ok (y, st2) →
        y.difDentro st.u_anterior parametrosMPCPadrao.delta_u_max ∧
        st2.u_anterior.dentro parametrosMPCPadrao.u_min parametrosMPCPadrao.u_max := by
  intro exc s1 s2 st x r hAnt hs1 hs2 y st2 hEq
  have hdel1 : (0 : ℚ) ≤ parametrosMPCPadrao.delta_u_max.c1 := by
    norm_num [parametrosMPCPadrao, params.delta_u1_max]
  have hdel2 : (0 : ℚ) ≤ parametrosMPCPadrao.delta_u_max.c2 := by
    norm_num [parametrosMPCPadrao, params.delta_u2_max]
  have hdel3 : (0 : ℚ) ≤ parametrosMPCPadrao.delta_u_max.c3 := by
    norm_num [parametrosMPCPadrao, params.delta_u3_max]
  cases exc with
  | some e => exact absurd hEq (by simp [calcularControle])
  | none =>
    cases s1 with
    | excecao msg =>
        simp only [calcularControle, Except.ok.injEq, Prod.mk.injEq] at hEq
        obtain ⟨rfl, rfl⟩ := hEq
        exact ⟨difDentro_refl _ _ hdel1 hdel2 hdel3, hAnt⟩
    | resolvido status u0 =>
        simp only [calcularControle] at hEq
        by_cases hs : status = "optimal" ∨ status = "optimal_inaccurate"
        · rw [if_pos hs] at hEq
          simp only [Except.ok.injEq, Prod.mk.injEq] at hEq
          obtain ⟨rfl, rfl⟩ := hEq
          obtain ⟨hin, hdif⟩ := hs1 status u0 rfl hs
          rw [clipar_eq_of_dentro _ _ _ hin]
          exact ⟨hdif, hin⟩
        · rw [if_neg hs] at hEq
          cases s2 with
          | excecao msg =>
              dsimp only at hEq
              simp only [Except.ok.injEq, Prod.mk.injEq] at hEq
              obtain ⟨rfl, rfl⟩ := hEq
              exact ⟨conservador_propriedades _ hAnt, hAnt⟩
          | resolvido status2 u0r =>
              dsimp only at hEq
              by_cases hs2p : status2 = "optimal" ∨ status2 = "optimal_inaccurate"
              · rw [if_pos hs2p] at hEq
                simp only [Except.ok.injEq, Prod.mk.injEq] at hEq
                obtain ⟨rfl, rfl⟩ := hEq
                obtain ⟨hin, hdif⟩ := hs2 status2 u0r rfl hs2p
                rw [clipar_eq_of_dentro _ _ _ hin]
                exact ⟨hdif, hin⟩
              · rw [if_neg hs2p] at hEq
                simp only [Except.ok.injEq, Prod.mk.injEq] at hEq
                obtain ⟨rfl, rfl⟩ := hEq
                exact ⟨conservador_propriedades _ hAnt, hAnt⟩

/-- C8 witness: the theorem applied at a fresh controller (previous action at
equilibrium, inside the box) whose solve raises, so the previous action comes
back with a componentwise zero difference. -/
theorem c8_testemunha :
    (estadoMPCInicial.u_anterior.dentro parametrosMPCPadrao.u_min
        parametrosMPCPadrao.u_max ∧
     solverRespeita parametrosMPCPadrao estadoMPCInicial (.excecao "SolverError") ∧
     solverRespeita parametrosMPCPadrao estadoMPCInicial
        (.resolvido "infeasible" ⟨0, 0, 0⟩)) ∧
    (∀ y st2,
      calcularControle parametrosMPCPadrao none (.excecao "SolverError")
          (.resolvido "infeasible" ⟨0, 0, 0⟩) estadoMPCInicial ⟨3/2, 180⟩
          ⟨17/10, 200⟩ = Except.ok (y, st2) →
      y.difDentro estadoMPCInicial.u_anterior parametrosMPCPadrao.delta_u_max ∧
      st2.u_anterior.dentro parametrosMPCPadrao.u_min parametrosMPCPadrao.u_max) := by
  have h1 : estadoMPCInicial.u_anterior.dentro parametrosMPCPadrao.u_min
      parametrosMPCPadrao.u_max := by
    refine ⟨?_, ?_, ?_, ?_, ?_, ?_⟩ <;>
      norm_num [estadoMPCInicial, parametrosMPCPadrao, params.u1_eq,
        params.u2_eq, params.u3_eq]
  have h2 : solverRespeita parametrosMPCPadrao estadoMPCInicial
      (.excecao "SolverError") := by
    intro status u0 h
    exact absurd h (by simp)
  have h3 : solverRespeita parametrosMPCPadrao estadoMPCInicial
      (.resolvido "infeasible" ⟨0, 0, 0⟩) := by
    intro status u0 h hsucc
    obtain ⟨rfl, -⟩ := ResultadoSolver.resolvido.inj h.symm
    exact absurd hsucc (by simp)
  exact ⟨⟨h1, h2, h3⟩,
    c8_respeito_taxa none (.excecao "SolverError")
      (.resolvido "infeasible" ⟨0, 0, 0⟩) estadoMPCInicial ⟨3/2, 180⟩
      ⟨17/10, 200⟩ h1 h2 h3⟩

/-! ## C7 — the reduced-horizon retry formulation -/

theorem juntarPassos_length (f : ℕ → List Restricao) (k : ℕ)
    (hf : ∀ m, (f m).length = k) : ∀ n, (juntarPassos f n).length = n * k := by
  intro n
  induction n with
  | zero => simp [juntarPassos]
  | succ m ih => simp [juntarPassos, ih, hf, Nat.succ_mul]

/-- C7 counterexample: at the halved-and-floored horizons (`Np = 25`,
`Nc = 10`) and a deviation reference with a positive level step, the
reduced-horizon retry problem is NOT the identical formulation: the original
constraint list carries one overshoot-ceiling constraint per prediction step
(217 constraints in total) while the retry carries none (192 constraints). -/
theorem c7_contraexemplo :
    restricoesReduzido (npReduzido params.Np) (ncReduzido params.Nc) ≠
      restricoesOriginal ⟨1/5, 0⟩ (npReduzido params.Np) (ncReduzido params.Nc) := by
  have hnp : npReduzido params.Np = 25 := by norm_num [npReduzido, params.Np]
  have hnc : ncReduzido params.Nc = 10 := by norm_num [ncReduzido, params.Nc]
  rw [hnp, hnc]
  intro h
  have hlen := congrArg List.length h
  have h1 := juntarPassos_length passoPredicaoReduzido 6
    (fun m => by simp [passoPredicaoReduzido]) 25
  have h2 := juntarPassos_length passoControleReduzido 4
    (fun m => by simp [passoControleReduzido]) 10
  have h3 := juntarPassos_length (passoPredicaoOriginal ⟨1/5, 0⟩) 7
    (fun m => by norm_num [passoPredicaoOriginal]) 25
  have h4 := juntarPassos_length passoControleOriginal 4
    (fun m => by simp [passoControleOriginal]) 10
  rw [restricoesReduzido, restricoesOriginal] at hlen
  simp only [List.length_append, h1, h2, h3, h4, List.length_cons,
    List.length_nil] at hlen
  norm_num at hlen

theorem filter_passoPredicaoOriginal (rDev : Vetor2) (k : ℕ) :
    (passoPredicaoOriginal rDev k).filter (fun r => ! r.ehTetoOuPiso) =
      passoPredicaoReduzido k := by
  unfold passoPredicaoOriginal passoPredicaoReduzido
  by_cases h1 : rDev.c1 > 0 ∨ rDev.c2 > 0 <;>
    by_cases h2 : rDev.c1 < 0 ∨ rDev.c2 < 0 <;>
      by_cases h3 : rDev.c2 > 0 <;>
        by_cases h4 : rDev.c2 < 0 <;>
          simp [h1, h2, h3, h4, List.filter_append, List.filter,
            Restricao.ehTetoOuPiso]

theorem filter_juntarPassos (f g : ℕ → List Restricao)
    (h : ∀ k, (f k).filter (fun r => ! r.ehTetoOuPiso) = g k) :
    ∀ n, (juntarPassos f n).filter (fun r => ! r.ehTetoOuPiso) = juntarPassos g n := by
  intro n
  induction n with
  | zero => simp [juntarPassos]
  | succ m ih => simp [juntarPassos, List.filter_append, ih, h]

/-- C7 (amended): the reduced-horizon retry solved after a first non-optimal
status uses the horizons halved and floored at 10 prediction / 5 control
steps, the same cost terms, and the same constraint families as the original
problem EXCEPT the overshoot/undershoot ceiling constraints, which the retry
omits entirely: its constraint list is exactly the original constraint list at
the reduced horizons with the ceiling family filtered out. -/
theorem c7_formulacao_reduzida :
    ∀ (rDev : Vetor2) (np nc : ℕ),
      restricoesReduzido (npReduzido np) (ncReduzido nc) =
        (restricoesOriginal rDev (npReduzido np) (ncReduzido nc)).filter
          (fun r => ! r.ehTetoOuPiso) ∧
      custosReduzido (npReduzido np) (ncReduzido nc) =
        custosOriginal (npReduzido np) (ncReduzido nc) := by
  intro rDev np nc
  refine ⟨?_, rfl⟩
  rw [restricoesOriginal, restricoesReduzido, List.filter_append,
    List.filter_append,
    filter_juntarPassos _ _ (filter_passoPredicaoOriginal rDev),
    filter_juntarPassos passoControleOriginal passoControleReduzido
      (fun k => rfl)]
  rfl

/-! ## C9 — what `reset` does and does not touch -/

/-- C9 counterexample: `reset` does NOT restore the actuator map to the
equilibrium actuator vector and does NOT re-base the two timestamps: on a
running session whose actuator map is all-zero, `reset` leaves
`control_actions` (which differs from the equilibrium map) and both
timestamps exactly as they were. -/
theorem c9_contraexemplo :
    (resetar servicoExemplo).control_actions = servicoExemplo.control_actions ∧
    servicoExemplo.control_actions ≠ controlesMapaEquilibrio ∧
    (resetar servicoExemplo).last_update_time = servicoExemplo.last_update_time ∧
    (resetar servicoExemplo).last_control_time = servicoExemplo.last_control_time := by
  refine ⟨rfl, ?_, rfl, rfl⟩
  intro h
  have hc := congrArg ControlesMapa.tank_c_water_pump h
  norm_num [servicoExemplo, controlesMapaEquilibrio, params.u1_eq] at hc

/-- C9 (amended): when the model and the controllers exist, `reset` sets the
physics model to the equilibrium state vector (through `definir_estado`),
refreshes `current_state` from the model and copies it into `setpoints` —
and modifies NOTHING else: the controller internal accumulators
(`controladores`), the actuator map (`control_actions`), both timestamps, the
session id, the intervals and the running/paused flags are all left unchanged.
(The claim wrongly adds that the actuator map is restored and that the
timestamps are re-based.) -/
theorem c9_resetar_efeitos :
    ∀ (s : ServicoTempoReal) (m : SistemaCompleto) (cs : SistemaControle),
      s.modelo = some m → s.controladores = some cs →
      resetar s =
        { s with
          modelo :=
            some (((m.definirEstado (.vetor estadoInicialVetor)).1.obterEstado).1)
          current_state :=
            variaveisDeVetor
              (((m.definirEstado (.vetor estadoInicialVetor)).1.obterEstado).2)
          setpoints :=
            variaveisDeVetor
              (((m.definirEstado (.vetor estadoInicialVetor)).1.obterEstado).2) } := by
  intro s m cs h1 h2
  simp only [resetar, h1, h2, atualizarEstadoDoModelo]

/-- C9 witness: the amended statement applied at the exemplar running
session. -/
theorem c9_testemunha :
    (servicoExemplo.modelo = some sistemaEquilibrio ∧
     servicoExemplo.controladores = some (sistemaControleInicial params.TS_CONTROLADOR)) ∧
    resetar servicoExemplo =
      { servicoExemplo with
        modelo :=
          some (((sistemaEquilibrio.definirEstado
            (.vetor estadoInicialVetor)).1.obterEstado).1)
        current_state :=
          variaveisDeVetor
            (((sistemaEquilibrio.definirEstado
              (.vetor estadoInicialVetor)).1.obterEstado).2)
        setpoints :=
          variaveisDeVetor
            (((sistemaEquilibrio.definirEstado
              (.vetor estadoInicialVetor)).1.obterEstado).2) } :=
  ⟨⟨rfl, rfl⟩,
   c9_resetar_efeitos servicoExemplo sistemaEquilibrio
     (sistemaControleInicial params.TS_CONTROLADOR) rfl rfl⟩

/-! ## C10 — a failed telemetry send ends the loop -/

theorem executarPassoMPC_is_running (amb : AmbienteControle)
    (s : ServicoTempoReal) : ((executarPassoMPC amb s).1).is_running = s.is_running := by
  unfold executarPassoMPC
  split
  · dsimp only
    split
    · rfl
    · rfl
  · rfl

theorem integrarPassoFisica_is_running (sq : ℚ → ℚ) (s : ServicoTempoReal)
    (dt : ℚ) : ((integrarPassoFisica sq s dt).1).is_running = s.is_running := by
  unfold integrarPassoFisica
  split
  · rfl
  · rfl

theorem atualizarEstadoDoModelo_is_running (s : ServicoTempoReal) :
    (atualizarEstadoDoModelo s).is_running = s.is_running := by
  unfold atualizarEstadoDoModelo
  split
  · rfl
  · rfl

theorem passoControleSeDevido_is_running (amb : AmbienteControle)
    (s : ServicoTempoReal) (agora : ℚ) :
    ((passoControleSeDevido amb s agora).1).is_running = s.is_running := by
  unfold passoControleSeDevido
  split
  · split
    · next s2 _ heq =>
        have := executarPassoMPC_is_running amb s
        rw [heq] at this
        exact this
    · next s2 e heq =>
        have := executarPassoMPC_is_running amb s
        rw [heq] at this
        exact this
  · rfl

theorem passoFisicaSeDevida_is_running (sq : ℚ → ℚ) (s : ServicoTempoReal)
    (agora : ℚ) :
    ((passoFisicaSeDevida sq s agora).1).is_running = s.is_running := by
  unfold passoFisicaSeDevida
  split
  · split
    · next s3 _ heq =>
        have := integrarPassoFisica_is_running sq s (agora - s.last_update_time)
        rw [heq] at this
        exact this
    · next s3 e heq =>
        have := integrarPassoFisica_is_running sq s (agora - s.last_update_time)
        rw [heq] at this
        exact this
  · rfl

/-- C10 counterexample: with a session that is running and not paused, a
telemetry send failure does NOT leave the loop iterating: the iteration ends
with the catch-all `break` (`encerradaErro`), not with `continua`. -/
theorem c10_contraexemplo :
    (iteracaoTempoReal sqExemplo ambienteFalhaEnvio servicoSemModelo 0).2 =
        ResultadoIteracao.encerradaErro ∧
      ResultadoIteracao.encerradaErro ≠ ResultadoIteracao.continua := by
  constructor
  · have h1 : passoControleSeDevido ambienteFalhaEnvio.ambControle
        servicoSemModelo 0 = (servicoSemModelo, Except.ok ()) := by
      unfold passoControleSeDevido
      rw [if_neg]
      norm_num [servicoSemModelo, params.TS_CONTROLADOR]
    have h2 : passoFisicaSeDevida sqExemplo servicoSemModelo 0 =
        (servicoSemModelo, Except.ok ()) := by
      unfold passoFisicaSeDevida
      rw [if_neg]
      norm_num [servicoSemModelo, params.DT_INTEGRACAO]
    unfold iteracaoTempoReal
    rw [if_neg (by simp [ambienteFalhaEnvio]), if_neg (by simp [servicoSemModelo]),
      h1]
    dsimp only
    rw [h2]
    simp [ambienteFalhaEnvio]
  · simp

/-- C10 (amended): on a non-paused, non-cancelled iteration in which the
telemetry send raises, the loop does NOT continue: the iteration ends in the
catch-all `break` outcome — whether the exception surfaced at the send or
already in the control/physics steps — and `is_running` is left untouched (the
loop merely stops iterating; the flag still reads as running). -/
theorem c10_falha_envio_encerra :
    ∀ (sq : ℚ → ℚ) (amb : AmbienteIteracao) (s : ServicoTempoReal) (agora : ℚ),
      amb.cancelada = false → s.is_paused = false → amb.falhaEnvio = true →
      (iteracaoTempoReal sq amb s agora).2 = ResultadoIteracao.encerradaErro ∧
      ((iteracaoTempoReal sq amb s agora).1).is_running = s.is_running := by
  intro sq amb s agora hc hp hf
  unfold iteracaoTempoReal
  rw [if_neg (by simp [hc]), if_neg (by simp [hp])]
  split
  · next s2 e heq =>
      have := passoControleSeDevido_is_running amb.ambControle s agora
      rw [heq] at this
      exact ⟨rfl, this⟩
  · next s2 _ heq =>
      have hr2 : s2.is_running = s.is_running := by
        have := passoControleSeDevido_is_running amb.ambControle s agora
        rw [heq] at this
        exact this
      split
      · next s3 e heq2 =>
          have := passoFisicaSeDevida_is_running sq s2 agora
          rw [heq2] at this
          exact ⟨rfl, this.trans hr2⟩
      · next s3 _ heq2 =>
          have hr3 : s3.is_running = s.is_running := by
            have := passoFisicaSeDevida_is_running sq s2 agora
            rw [heq2] at this
            exact this.trans hr2
          rw [hf]
          exact ⟨rfl, (atualizarEstadoDoModelo_is_running s3).trans hr3⟩

/-- C10 witness: the amended statement applied at the exemplar session and the
send-failure environment. -/
theorem c10_testemunha :
    (ambienteFalhaEnvio.cancelada = false ∧ servicoSemModelo.is_paused = false ∧
     ambienteFalhaEnvio.falhaEnvio = true) ∧
    (iteracaoTempoReal sqExemplo ambienteFalhaEnvio servicoSemModelo 0).2 =
        ResultadoIteracao.encerradaErro ∧
    ((iteracaoTempoReal sqExemplo ambienteFalhaEnvio servicoSemModelo 0).1).is_running =
      servicoSemModelo.is_running :=
  ⟨⟨rfl, rfl, rfl⟩,
   c10_falha_envio_encerra sqExemplo ambienteFalhaEnvio servicoSemModelo 0
     rfl rfl rfl⟩

end TanquesMPC
